import Mathlib

/-!
Verification development for the ESR-Forecast hybrid forecasting engine.

The engine (TypeScript) is shallowly embedded here: JS `number` values are
modelled as real numbers `ℝ` with exact arithmetic, `Math.floor` as `Int.floor`
(cast back to `ℝ`), `Math.sqrt` as `Real.sqrt`, `Math.pow` as `Real.rpow`,
`Math.max`/`Math.min` as `max`/`min`.  JS `Date` values are modelled by their
millisecond time value (`Date.prototype.getTime`) as an integer, and
`setDate(getDate() + d)` as adding `d * 86400000` milliseconds.  JS
`Array.prototype.sort` (guaranteed stable) with the timestamp comparators used
by the engine is modelled by a stable insertion sort on the timestamp key.
`Math.random()` and `new Date()` (wall clock), which the source reaches only in
the mock-history generator, are modelled by explicit parameters `rng : ℕ → ℝ`
(the stream of values produced by consecutive `Math.random()` calls) and
`now : ℤ`.  A thrown `Error` is modelled by `Except.error` of its message.
-/

namespace ESR

noncomputable section

/-- `Math.floor` on JS numbers: integer floor, back in `ℝ`. -/
def jsFloor (x : ℝ) : ℝ := ⌊x⌋

/-- Stable insert for descending sort by an integer key: `x` is placed after
every earlier element with a strictly larger key and before the rest, so
elements with equal keys keep their original order (JS stable sort). -/
def insertDesc {α : Type*} (key : α → ℤ) (x : α) : List α → List α
  | [] => [x]
  | y :: ys => if key x < key y then y :: insertDesc key x ys else x :: y :: ys

/-- `[...l].sort((a, b) => key b - key a)`: stable descending sort by key. -/
def sortDesc {α : Type*} (key : α → ℤ) : List α → List α
  | [] => []
  | x :: xs => insertDesc key x (sortDesc key xs)

/-- Stable insert for ascending sort by an integer key. -/
def insertAsc {α : Type*} (key : α → ℤ) (x : α) : List α → List α
  | [] => [x]
  | y :: ys => if key y < key x then y :: insertAsc key x ys else x :: y :: ys

/-- `[...l].sort((a, b) => key a - key b)`: stable ascending sort by key. -/
def sortAsc {α : Type*} (key : α → ℤ) : List α → List α
  | [] => []
  | x :: xs => insertAsc key x (sortAsc key xs)

/-- `simple-statistics` `mean`: sum divided by length. -/
def mean (l : List ℝ) : ℝ := l.sum / l.length

/-- `simple-statistics` `variance` (population variance). -/
def variance (l : List ℝ) : ℝ :=
  (l.map (fun x => (x - mean l) ^ 2)).sum / l.length

/-- `simple-statistics` `standardDeviation`: 0 for a single sample, otherwise
the square root of the population variance. -/
def standardDeviation (l : List ℝ) : ℝ :=
  if l.length = 1 then 0 else Real.sqrt (variance l)

/-- `simple-statistics` `sampleVariance` (n − 1 denominator). -/
def sampleVariance (l : List ℝ) : ℝ :=
  (l.map (fun x => (x - mean l) ^ 2)).sum / ((l.length : ℝ) - 1)

/-- `simple-statistics` `sampleStandardDeviation`. -/
def sampleStandardDeviation (l : List ℝ) : ℝ :=
  Real.sqrt (sampleVariance l)

/-- `simple-statistics` `sampleCovariance`. -/
def sampleCovariance (x y : List ℝ) : ℝ :=
  ((x.zip y).map (fun p => (p.1 - mean x) * (p.2 - mean y))).sum /
    ((x.length : ℝ) - 1)

/-- `simple-statistics` `sampleCorrelation`. -/
def sampleCorrelation (x y : List ℝ) : ℝ :=
  sampleCovariance x y / (sampleStandardDeviation x * sampleStandardDeviation y)

/-- Result record of `simple-statistics` `linearRegression`. -/
structure LinReg where
  m : ℝ
  b : ℝ

instance : Inhabited LinReg := ⟨⟨0, 0⟩⟩

/-- `simple-statistics` `linearRegression`: ordinary least squares on the
running sums, with the single-point special case. -/
def linearRegression (data : List (ℝ × ℝ)) : LinReg :=
  if data.length = 1 then { m := 0, b := data.headI.2 } else
  let n : ℝ := data.length
  let sumX := (data.map (·.1)).sum
  let sumY := (data.map (·.2)).sum
  let sumXY := (data.map (fun p => p.1 * p.2)).sum
  let sumXX := (data.map (fun p => p.1 * p.1)).sum
  let mm := (n * sumXY - sumX * sumY) / (n * sumXX - sumX * sumX)
  { m := mm, b := sumY / n - (mm * sumX) / n }

/-! ### Protocol constants (`src/lib/model/constants.ts`) -/

def SECONDS_PER_SLOT : ℝ := 12
def SLOTS_PER_EPOCH : ℝ := 32
def SECONDS_PER_EPOCH : ℝ := SECONDS_PER_SLOT * SLOTS_PER_EPOCH
def EPOCHS_PER_DAY : ℝ := (24 * 60 * 60) / SECONDS_PER_EPOCH
def EPOCHS_PER_YEAR : ℝ := EPOCHS_PER_DAY * 365.25
def MIN_PER_EPOCH_CHURN_LIMIT : ℝ := 4
def CHURN_LIMIT_QUOTIENT : ℝ := 65536
def BASE_REWARD_FACTOR : ℝ := 64
def BASE_REWARDS_PER_EPOCH : ℝ := 4
def TOTAL_ETH_SUPPLY : ℝ := 120000000

/-! ### Protocol model (`src/lib/model/protocol.ts`) -/

/-- `getBaseRewardPerEpoch`: base reward per validator per epoch;
`effective_balance * BASE_REWARD_FACTOR / floor(sqrt(total_effective_balance))`
in Gwei, converted back to ETH. -/
def getBaseRewardPerEpoch (effectiveBalance totalEffectiveBalance : ℝ) : ℝ :=
  let effectiveBalanceGwei := effectiveBalance * 1e9
  let totalEffectiveBalanceGwei := totalEffectiveBalance * 1e9
  let baseReward := effectiveBalanceGwei * BASE_REWARD_FACTOR /
    jsFloor (Real.sqrt totalEffectiveBalanceGwei)
  baseReward / 1e9

/-- `getTheoreticalAPR`: annualized theoretical maximum APR for a 32 ETH
validator; 0 for non-positive stake. -/
def getTheoreticalAPR (totalStakedETH : ℝ) : ℝ :=
  if totalStakedETH ≤ 0 then 0 else
  let baseRewardPerEpoch := getBaseRewardPerEpoch 32 totalStakedETH
  let rewardsPerEpoch := baseRewardPerEpoch * BASE_REWARDS_PER_EPOCH
  let annualRewards := rewardsPerEpoch * EPOCHS_PER_YEAR
  annualRewards / 32 * 100

/-- `getChurnLimit`: `max(MIN_PER_EPOCH_CHURN_LIMIT, floor(v / CHURN_LIMIT_QUOTIENT))`. -/
def getChurnLimit (activeValidatorCount : ℝ) : ℝ :=
  max MIN_PER_EPOCH_CHURN_LIMIT (jsFloor (activeValidatorCount / CHURN_LIMIT_QUOTIENT))

/-- `getStakeRatio`: percentage of total ETH supply staked. -/
def getStakeRatio (totalStakedETH : ℝ) : ℝ :=
  totalStakedETH / TOTAL_ETH_SUPPLY * 100

/-- `getEquilibriumStakeForAPR`: closed-form inverse of the APR formula,
total-supply sentinel for non-positive target. -/
def getEquilibriumStakeForAPR (targetAPR : ℝ) : ℝ :=
  if targetAPR ≤ 0 then TOTAL_ETH_SUPPLY else
  let numerator := BASE_REWARD_FACTOR * BASE_REWARDS_PER_EPOCH * EPOCHS_PER_YEAR * 100
  let sqrtTotalStakeGwei := numerator / targetAPR
  let totalStakeGwei := sqrtTotalStakeGwei * sqrtTotalStakeGwei
  totalStakeGwei / 1e9

/-! ### Execution layer yield model (`src/lib/model/execution.ts`) -/

/-- Fee regime states. -/
inductive FeeRegime where
  | calm
  | elevated
  | hot
deriving DecidableEq, Repr

instance : Inhabited FeeRegime := ⟨.calm⟩

/-- Historical execution data point (`ExecutionDataPoint`); the timestamp is
the JS `Date` time value in milliseconds. -/
structure ExecutionDataPoint where
  timestamp : ℤ
  priorityFeesETH : ℝ
  mevRewardsETH : ℝ
  avgGasPrice : ℝ
  blockCount : ℝ

/-- A row of the regime transition matrix. -/
structure TransitionRow where
  toCalm : ℝ
  toElevated : ℝ
  toHot : ℝ

/-- Regime detection result (`RegimeDetection`). -/
structure RegimeDetection where
  currentRegime : FeeRegime
  regimeConfidence : ℝ
  daysInRegime : ℕ
  transitionProbability : TransitionRow

/-- Execution yield forecast (`ExecutionYieldForecast`). -/
structure ExecutionYieldForecast where
  dailyYieldETH : ℝ
  annualizedAPR : ℝ
  regime : FeeRegime
  confidenceLower : ℝ
  confidenceUpper : ℝ
  priorityFees : ℝ
  mevRewards : ℝ

/-- `REGIME_THRESHOLDS.calm.max` (= `elevated.min`). -/
def REGIME_THRESHOLDS_calm_max : ℝ := 0.001
/-- `REGIME_THRESHOLDS.elevated.max` (= `hot.min`). -/
def REGIME_THRESHOLDS_elevated_max : ℝ := 0.003

/-- `TRANSITION_MATRIX`: daily regime transition probabilities. -/
def TRANSITION_MATRIX : FeeRegime → TransitionRow
  | .calm => ⟨0.85, 0.12, 0.03⟩
  | .elevated => ⟨0.25, 0.55, 0.20⟩
  | .hot => ⟨0.10, 0.40, 0.50⟩

/-- `MEAN_REVERSION` target per regime. -/
def MEAN_REVERSION_target : FeeRegime → ℝ
  | .calm => 0.0005
  | .elevated => 0.002
  | .hot => 0.004

/-- `MEAN_REVERSION` half-life per regime. -/
def MEAN_REVERSION_halfLife : FeeRegime → ℝ
  | .calm => 7
  | .elevated => 5
  | .hot => 3

/-- `classifyYield`: classify a single per-validator yield into a regime. -/
def classifyYield (yieldPerValidator : ℝ) : FeeRegime :=
  if yieldPerValidator < REGIME_THRESHOLDS_calm_max then .calm
  else if yieldPerValidator < REGIME_THRESHOLDS_elevated_max then .elevated
  else .hot

/-- The per-validator daily yield of one data point, as computed inside
`detectRegime`: `(priorityFeesETH + mevRewardsETH) / activeValidators`. -/
def pointYield (activeValidators : ℝ) (d : ExecutionDataPoint) : ℝ :=
  (d.priorityFeesETH + d.mevRewardsETH) / activeValidators

/-- `detectRegime`: classify the recent (sorted descending, newest 7) history
window; empty history returns the default calm detection. -/
def detectRegime (history : List ExecutionDataPoint) (activeValidators : ℝ) :
    RegimeDetection :=
  if history.length = 0 then
    { currentRegime := .calm
      regimeConfidence := 0.5
      daysInRegime := 0
      transitionProbability := TRANSITION_MATRIX .calm }
  else
    let sorted := sortDesc (fun d => d.timestamp) history
    let recentDays := sorted.take 7
    let dailyYields := recentDays.map (pointYield activeValidators)
    let avgYield := mean dailyYields
    let _yieldStd := if 1 < dailyYields.length then standardDeviation dailyYields
      else avgYield * 0.3
    let rc : FeeRegime × ℝ :=
      if avgYield < REGIME_THRESHOLDS_calm_max then
        (.calm, 1 - avgYield / REGIME_THRESHOLDS_calm_max)
      else if avgYield < REGIME_THRESHOLDS_elevated_max then
        let range := REGIME_THRESHOLDS_elevated_max - REGIME_THRESHOLDS_calm_max
        let position := (avgYield - REGIME_THRESHOLDS_calm_max) / range
        (.elevated, 1 - |position - 0.5| * 2)
      else
        (.hot, min 1 ((avgYield - REGIME_THRESHOLDS_elevated_max) / 0.002))
    let currentRegime := rc.1
    let daysInRegime :=
      (sorted.takeWhile (fun p =>
        classifyYield (pointYield activeValidators p) = currentRegime)).length
    { currentRegime := currentRegime
      regimeConfidence := max 0.3 (min 1 rc.2)
      daysInRegime := daysInRegime
      transitionProbability := TRANSITION_MATRIX currentRegime }

/-- One step of the three-state Markov chain on regime occupancy
probabilities `(calm, elevated, hot)`, as in the `forecastExecutionYield`
loop body. -/
def markovStep (p : ℝ × ℝ × ℝ) : ℝ × ℝ × ℝ :=
  (p.1 * (TRANSITION_MATRIX .calm).toCalm +
     p.2.1 * (TRANSITION_MATRIX .elevated).toCalm +
     p.2.2 * (TRANSITION_MATRIX .hot).toCalm,
   p.1 * (TRANSITION_MATRIX .calm).toElevated +
     p.2.1 * (TRANSITION_MATRIX .elevated).toElevated +
     p.2.2 * (TRANSITION_MATRIX .hot).toElevated,
   p.1 * (TRANSITION_MATRIX .calm).toHot +
     p.2.1 * (TRANSITION_MATRIX .elevated).toHot +
     p.2.2 * (TRANSITION_MATRIX .hot).toHot)

/-- `d` iterations of `markovStep` (the `for` loop over `daysAhead`). -/
def markovIter : ℕ → (ℝ × ℝ × ℝ) → ℝ × ℝ × ℝ
  | 0, p => p
  | n + 1, p => markovIter n (markovStep p)

/-- One-hot initial occupancy vector for the current regime. -/
def regimeOneHot : FeeRegime → ℝ × ℝ × ℝ
  | .calm => (1, 0, 0)
  | .elevated => (0, 1, 0)
  | .hot => (0, 0, 1)

/-- The most-likely regime after propagation, with the source's tie-breaking:
calm wins ties against both, elevated wins ties against hot. -/
def mostLikelyRegime (p : ℝ × ℝ × ℝ) : FeeRegime :=
  if p.2.1 ≤ p.1 ∧ p.2.2 ≤ p.1 then .calm
  else if p.2.2 ≤ p.2.1 then .elevated
  else .hot

/-- `forecastExecutionYield`: mean reversion toward the regime target,
Markov propagation of regime occupancy, 70/30 blending, annualization and the
fixed 40/60 fee/MEV split. -/
def forecastExecutionYield (currentYield : ℝ) (currentRegime : FeeRegime)
    (daysAhead : ℕ) (_activeValidators : ℝ) : ExecutionYieldForecast :=
  let reversionTarget := MEAN_REVERSION_target currentRegime
  let reversionHalfLife := MEAN_REVERSION_halfLife currentRegime
  let decayFactor := (0.5 : ℝ) ^ ((daysAhead : ℝ) / reversionHalfLife)
  let revertedYield := currentYield * decayFactor + reversionTarget * (1 - decayFactor)
  let probs := markovIter daysAhead (regimeOneHot currentRegime)
  let expectedRegime := mostLikelyRegime probs
  let regimeTarget := MEAN_REVERSION_target expectedRegime
  let finalYield := revertedYield * 0.7 + regimeTarget * 0.3
  let annualizedAPR := finalYield * 365 / 32 * 100
  let uncertaintyFactor := 1 + Real.sqrt (daysAhead : ℝ) * 0.1
  let feeRatio : ℝ := 0.4
  let priorityFees := finalYield * feeRatio
  let mevRewards := finalYield * (1 - feeRatio)
  { dailyYieldETH := finalYield
    annualizedAPR := annualizedAPR
    regime := expectedRegime
    confidenceLower := annualizedAPR / uncertaintyFactor
    confidenceUpper := annualizedAPR * uncertaintyFactor
    priorityFees := priorityFees * 365 / 32 * 100
    mevRewards := mevRewards * 365 / 32 * 100 }

/-- One iteration of the `generateMockExecutionHistory` loop, parameterized by
the `Math.random()` stream `rng` and the call counter `ctr`.  Returns the
produced data point, the next regime, the updated dwell counter and the
advanced call counter. -/
def mockStep (activeValidators : ℝ) (now : ℤ) (rng : ℕ → ℝ) (ctr : ℕ)
    (currentRegime : FeeRegime) (daysInCurrentRegime : ℤ) (i : ℕ) :
    ExecutionDataPoint × FeeRegime × ℤ × ℕ :=
  let trans := TRANSITION_MATRIX currentRegime
  let roll := rng ctr
  let rd : FeeRegime × ℤ :=
    if roll < trans.toCalm then
      (.calm, if currentRegime ≠ .calm then 0 else daysInCurrentRegime)
    else if roll < trans.toCalm + trans.toElevated then
      (.elevated, if currentRegime ≠ .elevated then 0 else daysInCurrentRegime)
    else
      (.hot, if currentRegime ≠ .hot then 0 else daysInCurrentRegime)
  let regime := rd.1
  let daysIn := rd.2 + 1
  let baseYield := MEAN_REVERSION_target regime * activeValidators
  let noise := (rng (ctr + 1) - 0.5) * baseYield * 0.4
  let totalYield := max 0 (baseYield + noise)
  let feeRatio := 0.35 + rng (ctr + 2) * 0.1
  let priorityFeesETH := totalYield * feeRatio
  let mevRewardsETH := totalYield * (1 - feeRatio)
  let baseGas : ℝ := if regime = .hot then 50 else if regime = .elevated then 25 else 10
  let avgGasPrice := baseGas + rng (ctr + 3) * 10
  (⟨now - (i : ℤ) * 86400000, priorityFeesETH, mevRewardsETH, avgGasPrice, 7200⟩,
   regime, daysIn, ctr + 4)

/-- The `for (let i = days; i >= 0; i--)` loop of
`generateMockExecutionHistory`, with `i` counting down to 0. -/
def mockLoop (activeValidators : ℝ) (now : ℤ) (rng : ℕ → ℝ) :
    ℕ → ℕ → FeeRegime → ℤ → List ExecutionDataPoint
  | ctr, i, regime, daysIn =>
    let r := mockStep activeValidators now rng ctr regime daysIn i
    match i with
    | 0 => [r.1]
    | i' + 1 => r.1 :: mockLoop activeValidators now rng r.2.2.2 i' r.2.1 r.2.2.1

/-- `generateMockExecutionHistory`: synthetic execution history driven by the
`Math.random()` stream `rng` and the wall clock `now`. -/
def generateMockExecutionHistory (days : ℕ) (activeValidators : ℝ)
    (rng : ℕ → ℝ) (now : ℤ) : List ExecutionDataPoint :=
  mockLoop activeValidators now rng 0 days .calm 0

/-! ### Hybrid forecasting model (`src/lib/model/forecast.ts`) -/

/-- Historical data point for training (`HistoricalDataPoint`); the timestamp
is the JS `Date` time value in milliseconds. -/
structure HistoricalDataPoint where
  timestamp : ℤ
  totalStakedETH : ℝ
  activeValidators : ℝ
  entryQueueLength : ℝ
  exitQueueLength : ℝ
  observedAPR : Option ℝ

instance : Inhabited HistoricalDataPoint := ⟨⟨0, 0, 0, 0, 0, none⟩⟩

/-- Driver attribution breakdown (`DriverAttribution`). -/
structure DriverAttribution where
  consensusAPR : ℝ
  executionAPR : ℝ
  totalAPR : ℝ
  consensusPct : ℝ
  executionPct : ℝ
  priorityFeesPct : ℝ
  mevPct : ℝ
  feeRegime : FeeRegime

instance : Inhabited DriverAttribution := ⟨⟨0, 0, 0, 0, 0, 0, 0, .calm⟩⟩

/-- A forecast point (`ForecastPoint`), with the nested `confidence` and
`components` objects flattened into fields. -/
structure ForecastPoint where
  date : ℤ
  totalStakedETH : ℝ
  stakeRatio : ℝ
  forecastAPR : ℝ
  confidenceLower : ℝ
  confidenceUpper : ℝ
  protocolBase : ℝ
  trendAdjustment : ℝ
  queueConstraint : ℝ
  drivers : DriverAttribution

instance : Inhabited ForecastPoint := ⟨⟨0, 0, 0, 0, 0, 0, 0, 0, 0, default⟩⟩

/-- `feeRegimeBias`: a forced regime or `'current'`. -/
inductive FeeRegimeBias where
  | calm
  | elevated
  | hot
  | current
deriving DecidableEq, Repr

/-- Forecast scenario parameters (`ScenarioParams`). -/
structure ScenarioParams where
  netFlowBias : ℝ
  mevMultiplier : ℝ
  queuePressure : ℝ
  feeRegimeBias : FeeRegimeBias

/-- `DEFAULT_SCENARIO`. -/
def DEFAULT_SCENARIO : ScenarioParams :=
  { netFlowBias := 0, mevMultiplier := 1.0, queuePressure := 1.0,
    feeRegimeBias := .current }

/-- Result of `calculateStakingTrend`. -/
structure TrendResult where
  dailyGrowthRate : ℝ
  volatility : ℝ
  r2 : ℝ

/-- The daily-change samples built from consecutive points of the ascending
sorted history, skipping pairs with non-positive day gap. -/
def dailyChangesOf (sortedHistory : List HistoricalDataPoint) : List ℝ :=
  (sortedHistory.zip sortedHistory.tail).filterMap (fun pc =>
    let daysDiff := ((pc.2.timestamp - pc.1.timestamp : ℤ) : ℝ) / (24 * 60 * 60 * 1000)
    if 0 < daysDiff then
      some ((pc.2.totalStakedETH - pc.1.totalStakedETH) / daysDiff)
    else none)

/-- `calculateStakingTrend`: average daily stake change, its standard
deviation, and the R² of a linear fit of stake against index. -/
def calculateStakingTrend (history : List HistoricalDataPoint) : TrendResult :=
  if history.length < 2 then ⟨0, 0, 0⟩ else
  let sortedHistory := sortAsc (fun p => p.timestamp) history
  let dailyChanges := dailyChangesOf sortedHistory
  if dailyChanges.length = 0 then ⟨0, 0, 0⟩ else
  let regressionData := sortedHistory.enum.map
    (fun ip => ((ip.1 : ℝ), ip.2.totalStakedETH))
  let regression := linearRegression regressionData
  let avgDailyGrowth := mean dailyChanges
  let volatility := if 1 < dailyChanges.length then standardDeviation dailyChanges else 0
  let predictions := regressionData.map (fun q => regression.m * q.1 + regression.b)
  let actuals := regressionData.map (fun q => q.2)
  let correlation := sampleCorrelation predictions actuals
  ⟨avgDailyGrowth, volatility, correlation * correlation⟩

/-- `calculateQueuePressure`: returns `entryQueueLength - exitQueueLength`
(the intermediate day counts are computed but unused in the source). -/
def calculateQueuePressure (entryQueueLength exitQueueLength activeValidators : ℝ) : ℝ :=
  let churnLimit := getChurnLimit activeValidators
  let validatorsPerDay := churnLimit * EPOCHS_PER_DAY
  let _entryDays := entryQueueLength / validatorsPerDay
  let _exitDays := exitQueueLength / validatorsPerDay
  entryQueueLength - exitQueueLength

/-- `getMaxDailyStakeChange`: maximum daily stake change allowed by churn. -/
def getMaxDailyStakeChange (activeValidators : ℝ) : ℝ :=
  let churnLimit := getChurnLimit activeValidators
  let validatorsPerDay := churnLimit * EPOCHS_PER_DAY
  validatorsPerDay * 32

/-- `applyAPRFeedback`; the source's default `targetAPR` is 4.0 and every call
site uses the default. -/
def applyAPRFeedback (baseGrowthRate currentAPR targetAPR : ℝ) : ℝ :=
  let aprDiff := currentAPR - targetAPR
  let feedbackFactor := aprDiff * 0.1
  baseGrowthRate * (1 + feedbackFactor)

/-- The mutable running state of the day-stepped simulation. -/
structure SimState where
  currentStake : ℝ
  currentValidators : ℝ
  currentEntryQueue : ℝ
  currentExitQueue : ℝ

/-- The loop-invariant data of one `generateForecast` call: everything the
daily loop body reads but never writes. -/
structure ForecastEnv where
  latestTimestamp : ℤ
  trend : TrendResult
  scenario : ScenarioParams
  maxDailyChange : ℝ
  baseRegime : FeeRegime
  currentExecYield : ℝ

/-- One iteration of the `for (let day = 1; day <= daysToForecast; day++)`
loop body of `generateForecast`: produces the day's `ForecastPoint` and the
updated running state. -/
def simDay (env : ForecastEnv) (st : SimState) (day : ℕ) : ForecastPoint × SimState :=
  let forecastDate := env.latestTimestamp + (day : ℤ) * 86400000
  let consensusAPR := getTheoreticalAPR st.currentStake
  let execForecast := forecastExecutionYield env.currentExecYield env.baseRegime day
    st.currentValidators
  let adjustedExecAPR := execForecast.annualizedAPR * env.scenario.mevMultiplier
  let totalAPR := consensusAPR + adjustedExecAPR
  let drivers : DriverAttribution :=
    { consensusAPR := consensusAPR
      executionAPR := adjustedExecAPR
      totalAPR := totalAPR
      consensusPct := consensusAPR / totalAPR * 100
      executionPct := adjustedExecAPR / totalAPR * 100
      priorityFeesPct := execForecast.priorityFees / adjustedExecAPR *
        (adjustedExecAPR / totalAPR) * 100
      mevPct := execForecast.mevRewards / adjustedExecAPR *
        (adjustedExecAPR / totalAPR) * 100
      feeRegime := execForecast.regime }
  let expectedGrowth0 := applyAPRFeedback
    (env.trend.dailyGrowthRate + env.scenario.netFlowBias * env.maxDailyChange * 0.1)
    totalAPR 4.0
  let _netQueueFlow := (st.currentEntryQueue - st.currentExitQueue) * 32
  let expectedGrowth :=
    if 0 < expectedGrowth0 then min expectedGrowth0 env.maxDailyChange
    else max expectedGrowth0 (-env.maxDailyChange)
  let currentStake := max 0 (st.currentStake + expectedGrowth)
  let currentValidators := jsFloor (currentStake / 32)
  let dailyChurn := getChurnLimit currentValidators * EPOCHS_PER_DAY
  let currentEntryQueue := max 0 (st.currentEntryQueue - dailyChurn)
  let currentExitQueue := max 0 (st.currentExitQueue - dailyChurn)
  let uncertaintyGrowth := Real.sqrt (day : ℝ) * env.trend.volatility * 32
  let confidenceMultiplier : ℝ := 1.96
  let stakeRatio := getStakeRatio currentStake
  (⟨forecastDate, currentStake, stakeRatio, totalAPR,
      max 0 (currentStake - confidenceMultiplier * uncertaintyGrowth),
      currentStake + confidenceMultiplier * uncertaintyGrowth,
      consensusAPR, expectedGrowth, env.maxDailyChange, drivers⟩,
   ⟨currentStake, currentValidators, currentEntryQueue, currentExitQueue⟩)

/-- The daily simulation loop: starting at `day`, run `n` iterations of
`simDay` threading the state, collecting the produced points in order. -/
def simRun (env : ForecastEnv) (st : SimState) (day : ℕ) : ℕ → List ForecastPoint
  | 0 => []
  | n + 1 =>
    let r := simDay env st day
    r.1 :: simRun env r.2 (day + 1) n

/-- The running state after `n` iterations of `simDay` starting at `day`. -/
def iterState (env : ForecastEnv) (st : SimState) (day : ℕ) : ℕ → SimState
  | 0 => st
  | n + 1 => iterState env (simDay env st day).2 (day + 1) n

/-- `Array.prototype.filter` with the element index, as used by the final
downsampling step of `generateForecast`. -/
def filterWithIndex {α : Type*} (p : ℕ → α → Bool) : ℕ → List α → List α
  | _, [] => []
  | i, x :: xs =>
    if p i x then x :: filterWithIndex p (i + 1) xs else filterWithIndex p (i + 1) xs

/-- `forecasts.filter((_, i) => (i + 1) % 30 === 0 || i === forecasts.length - 1)`:
keep monthly snapshots plus the final day. -/
def monthlyFilter (forecasts : List ForecastPoint) : List ForecastPoint :=
  filterWithIndex (fun i _ => (i + 1) % 30 == 0 || i == forecasts.length - 1) 0 forecasts

/-- `generateForecast`.  `executionHistory` is the optional fourth argument
(`none` models `undefined`, which triggers the mock-history fallback);
`rng`/`now` model the `Math.random()` stream and wall clock reachable only
through that fallback.  Throwing on empty history is modelled by
`Except.error`. -/
def generateForecast (history : List HistoricalDataPoint) (monthsAhead : ℕ)
    (scenario : ScenarioParams) (executionHistory : Option (List ExecutionDataPoint))
    (rng : ℕ → ℝ) (now : ℤ) : Except String (List ForecastPoint) :=
  if history.length = 0 then .error "No historical data provided" else
  let sortedHistory := sortDesc (fun p => p.timestamp) history
  let latestState := sortedHistory.headI
  let trend := calculateStakingTrend history
  let _queuePressure := calculateQueuePressure
    (latestState.entryQueueLength * scenario.queuePressure)
    (latestState.exitQueueLength * scenario.queuePressure)
    latestState.activeValidators
  let maxDailyChange := getMaxDailyStakeChange latestState.activeValidators
  let execHistory := executionHistory.getD
    (generateMockExecutionHistory 90 latestState.activeValidators rng now)
  let regimeDetection := detectRegime execHistory latestState.activeValidators
  let baseRegime :=
    match scenario.feeRegimeBias with
    | .current => regimeDetection.currentRegime
    | .calm => FeeRegime.calm
    | .elevated => FeeRegime.elevated
    | .hot => FeeRegime.hot
  let recentExec := execHistory.take 7
  let currentExecYield :=
    if 0 < recentExec.length then
      mean (recentExec.map (pointYield latestState.activeValidators))
    else 0.001
  let daysToForecast := monthsAhead * 30
  let env : ForecastEnv :=
    ⟨latestState.timestamp, trend, scenario, maxDailyChange, baseRegime, currentExecYield⟩
  let st0 : SimState :=
    ⟨latestState.totalStakedETH, latestState.activeValidators,
      latestState.entryQueueLength, latestState.exitQueueLength⟩
  let forecasts := simRun env st0 1 daysToForecast
  .ok (monthlyFilter forecasts)

/-- The bullish preset of `compareScenarios`. -/
def bullishParams : ScenarioParams :=
  { netFlowBias := 0.5, mevMultiplier := 1.3, queuePressure := 1.5,
    feeRegimeBias := .elevated }

/-- The bearish preset of `compareScenarios`. -/
def bearishParams : ScenarioParams :=
  { netFlowBias := -0.5, mevMultiplier := 0.7, queuePressure := 0.5,
    feeRegimeBias := .calm }

/-- The triple returned by `compareScenarios`. -/
structure ScenarioComparison where
  baseline : List ForecastPoint
  bullish : List ForecastPoint
  bearish : List ForecastPoint

/-- `compareScenarios`: the three fixed scenario runs over the same inputs. -/
def compareScenarios (history : List HistoricalDataPoint) (monthsAhead : ℕ)
    (executionHistory : Option (List ExecutionDataPoint)) (rng : ℕ → ℝ) (now : ℤ) :
    Except String ScenarioComparison := do
  let baseline ← generateForecast history monthsAhead DEFAULT_SCENARIO executionHistory rng now
  let bullish ← generateForecast history monthsAhead bullishParams executionHistory rng now
  let bearish ← generateForecast history monthsAhead bearishParams executionHistory rng now
  pure ⟨baseline, bullish, bearish⟩

/-- The pre-loop setup block of `generateForecast` (everything between the
emptiness check and the daily loop), exposed as a pair (environment, initial
state) so that lemmas can name the loop inputs.  `generateForecast` past its
emptiness check is definitionally `monthlyFilter (simRun ...)` over this
setup (see `generateForecast_eq_ok`). -/
def forecastSetup (history : List HistoricalDataPoint) (scenario : ScenarioParams)
    (executionHistory : Option (List ExecutionDataPoint)) (rng : ℕ → ℝ) (now : ℤ) :
    ForecastEnv × SimState :=
  let sortedHistory := sortDesc (fun p => p.timestamp) history
  let latestState := sortedHistory.headI
  let trend := calculateStakingTrend history
  let maxDailyChange := getMaxDailyStakeChange latestState.activeValidators
  let execHistory := executionHistory.getD
    (generateMockExecutionHistory 90 latestState.activeValidators rng now)
  let regimeDetection := detectRegime execHistory latestState.activeValidators
  let baseRegime :=
    match scenario.feeRegimeBias with
    | .current => regimeDetection.currentRegime
    | .calm => FeeRegime.calm
    | .elevated => FeeRegime.elevated
    | .hot => FeeRegime.hot
  let recentExec := execHistory.take 7
  let currentExecYield :=
    if 0 < recentExec.length then
      mean (recentExec.map (pointYield latestState.activeValidators))
    else 0.001
  (⟨latestState.timestamp, trend, scenario, maxDailyChange, baseRegime, currentExecYield⟩,
   ⟨latestState.totalStakedETH, latestState.activeValidators,
     latestState.entryQueueLength, latestState.exitQueueLength⟩)

/-- A concrete one-point history used by the concrete witnesses: the spec's
example state (34.5M ETH staked, 1 078 125 validators, queues 2500/800) at
time 0. -/
def sampleHistoryPoint : HistoricalDataPoint := ⟨0, 34500000, 1078125, 2500, 800, none⟩

/-- The singleton history around `sampleHistoryPoint`. -/
def sampleHistory : List HistoricalDataPoint := [sampleHistoryPoint]

/-- A concrete stand-in for the `Math.random()` stream (never reached when an
execution history is supplied). -/
def zeroRng : ℕ → ℝ := fun _ => 0

/-- The single `ForecastPoint` returned by the one-month baseline run on
`sampleHistory` with an explicitly supplied empty execution history. -/
def samplePoint : ForecastPoint :=
  (simDay (forecastSetup sampleHistory DEFAULT_SCENARIO (some []) zeroRng 0).1
    (iterState (forecastSetup sampleHistory DEFAULT_SCENARIO (some []) zeroRng 0).1
      (forecastSetup sampleHistory DEFAULT_SCENARIO (some []) zeroRng 0).2 1 29) 30).1

/-- The single `ForecastPoint` returned by the one-month bullish-preset run on
`sampleHistory` with an explicitly supplied empty execution history. -/
def sampleBullishPoint : ForecastPoint :=
  (simDay (forecastSetup sampleHistory bullishParams (some []) zeroRng 0).1
    (iterState (forecastSetup sampleHistory bullishParams (some []) zeroRng 0).1
      (forecastSetup sampleHistory bullishParams (some []) zeroRng 0).2 1 29) 30).1

/-- A single execution record carrying 7 ETH of priority fees (timestamp 8). -/
def execPtA : ExecutionDataPoint := ⟨8, 7, 0, 10, 7200⟩

/-- Seven zero-fee execution records at distinct older timestamps. -/
def execRest : List ExecutionDataPoint :=
  [⟨7, 0, 0, 10, 7200⟩, ⟨6, 0, 0, 10, 7200⟩, ⟨5, 0, 0, 10, 7200⟩,
   ⟨4, 0, 0, 10, 7200⟩, ⟨3, 0, 0, 10, 7200⟩, ⟨2, 0, 0, 10, 7200⟩,
   ⟨1, 0, 0, 10, 7200⟩]

/-- Eight-record execution history with the fee-carrying record first. -/
def execHistA : List ExecutionDataPoint := execPtA :: execRest

/-- The rotation of `execHistA`: the same records with the fee-carrying
record moved last. -/
def execHistB : List ExecutionDataPoint := execRest ++ [execPtA]

/-- A two-point history with a positive staking trend of 8100 ETH/day
(34 491 900 ETH one day before 34 500 000 ETH), 1 078 125 validators and
empty queues. -/
def flowHistory : List HistoricalDataPoint :=
  [⟨0, 34500000, 1078125, 0, 0, none⟩,
   ⟨-86400000, 34491900, 1078125, 0, 0, none⟩]

/-- Seven execution records carrying 161 718 750 ETH (= 150 ETH per
validator) of daily priority fees each, an extreme but well-formed
(non-negative) fee history that the detector classifies as `hot`. -/
def hotExec : List ExecutionDataPoint :=
  [⟨7, 161718750, 0, 10, 7200⟩, ⟨6, 161718750, 0, 10, 7200⟩,
   ⟨5, 161718750, 0, 10, 7200⟩, ⟨4, 161718750, 0, 10, 7200⟩,
   ⟨3, 161718750, 0, 10, 7200⟩, ⟨2, 161718750, 0, 10, 7200⟩,
   ⟨1, 161718750, 0, 10, 7200⟩]

/-- The setup of the baseline run on `flowHistory` and `hotExec`. -/
def flowSetupE : ForecastEnv × SimState :=
  forecastSetup flowHistory DEFAULT_SCENARIO (some hotExec) zeroRng 0

/-- The setup of the bullish run on `flowHistory` and `hotExec`. -/
def flowSetupB : ForecastEnv × SimState :=
  forecastSetup flowHistory bullishParams (some hotExec) zeroRng 0

/-- The setup of the bearish run on `flowHistory` and `hotExec`. -/
def flowSetupR : ForecastEnv × SimState :=
  forecastSetup flowHistory bearishParams (some hotExec) zeroRng 0

/-- The single point of the one-month baseline run on `flowHistory`. -/
def cexBaselinePoint : ForecastPoint :=
  (simDay flowSetupE.1 (iterState flowSetupE.1 flowSetupE.2 1 29) 30).1

/-- The single point of the one-month bullish run on `flowHistory`. -/
def cexBullishPoint : ForecastPoint :=
  (simDay flowSetupB.1 (iterState flowSetupB.1 flowSetupB.2 1 29) 30).1

/-- The single point of the one-month bearish run on `flowHistory`. -/
def cexBearishPoint : ForecastPoint :=
  (simDay flowSetupR.1 (iterState flowSetupR.1 flowSetupR.2 1 29) 30).1

end

/-! ## General lemmas about the embedded functions -/

/-- For positive stake the theoretical APR is the constant 2 103 840 000
divided by the floored square root of the stake in Gwei. -/
theorem getTheoreticalAPR_pos_eq {s : ℝ} (hs : 0 < s) :
    getTheoreticalAPR s = 2103840000 / ((⌊Real.sqrt (s * 1e9)⌋ : ℤ) : ℝ) := by
  rw [getTheoreticalAPR, if_neg (by linarith)]
  show getBaseRewardPerEpoch 32 s * BASE_REWARDS_PER_EPOCH * EPOCHS_PER_YEAR / 32 * 100 = _
  rw [getBaseRewardPerEpoch]
  show 32 * 1e9 * BASE_REWARD_FACTOR / jsFloor (Real.sqrt (s * 1e9)) / 1e9 *
      BASE_REWARDS_PER_EPOCH * EPOCHS_PER_YEAR / 32 * 100 = _
  rw [jsFloor, BASE_REWARD_FACTOR, BASE_REWARDS_PER_EPOCH, EPOCHS_PER_YEAR,
    EPOCHS_PER_DAY, SECONDS_PER_EPOCH, SECONDS_PER_SLOT, SLOTS_PER_EPOCH]
  ring

/-- The theoretical APR is never negative. -/
theorem getTheoreticalAPR_nonneg (s : ℝ) : 0 ≤ getTheoreticalAPR s := by
  rcases le_or_lt s 0 with h | h
  · rw [getTheoreticalAPR, if_pos h]
  · rw [getTheoreticalAPR_pos_eq h]
    have : (0 : ℝ) ≤ ((⌊Real.sqrt (s * 1e9)⌋ : ℤ) : ℝ) := by
      exact_mod_cast Int.floor_nonneg.2 (Real.sqrt_nonneg _)
    positivity

/-- Floored square roots are determined by surrounding perfect squares. -/
theorem floor_sqrt_eq_of_bounds {x : ℝ} {n : ℤ} (hn : 0 ≤ (n : ℝ))
    (h1 : (n : ℝ) ^ 2 ≤ x) (h2 : x < ((n : ℝ) + 1) ^ 2) :
    ⌊Real.sqrt x⌋ = n := by
  rw [Int.floor_eq_iff]
  constructor
  · exact (Real.le_sqrt hn (le_trans (by positivity) h1)).2 h1
  · exact (Real.sqrt_lt' (by linarith)).2 h2

/-- `filterWithIndex` only ever drops elements. -/
theorem filterWithIndex_sublist {α : Type*} (p : ℕ → α → Bool) :
    ∀ (l : List α) (i : ℕ), (filterWithIndex p i l).Sublist l := by
  intro l
  induction l with
  | nil => intro i; simp [filterWithIndex]
  | cons x xs ih =>
    intro i
    rw [filterWithIndex]
    by_cases h : p i x
    · rw [if_pos h]; exact (ih (i + 1)).cons₂ x
    · rw [if_neg h]; exact (ih (i + 1)).cons x

/-- Membership in the monthly downsampling implies membership in the daily
list. -/
theorem mem_of_mem_monthlyFilter {p : ForecastPoint} {l : List ForecastPoint}
    (h : p ∈ monthlyFilter l) : p ∈ l :=
  (filterWithIndex_sublist _ l 0).subset h

/-- An index-only `filterWithIndex` has the same length as the filter of the
corresponding index range. -/
theorem filterWithIndex_length_eq_range' {α : Type*} (Q : ℕ → Bool) :
    ∀ (l : List α) (i : ℕ),
      (filterWithIndex (fun j _ => Q j) i l).length = ((List.range' i l.length).filter Q).length := by
  intro l
  induction l with
  | nil => intro i; simp [filterWithIndex]
  | cons x xs ih =>
    intro i
    rw [filterWithIndex, List.length_cons, List.range'_succ, List.filter_cons]
    by_cases h : Q i
    · rw [if_pos h, if_pos h, List.length_cons, List.length_cons, ih]
    · rw [if_neg h, if_neg h, ih]

/-- Counting multiples of 30 (as `i + 1`) below `n` gives `n / 30`. -/
theorem count_month_boundaries :
    ∀ n : ℕ, ((List.range n).filter (fun i => (i + 1) % 30 == 0)).length = n / 30 := by
  intro n
  induction n with
  | zero => simp
  | succ n ih =>
    rw [List.range_succ, List.filter_append, List.length_append, ih, List.filter_cons]
    have hiff : 30 ∣ (n + 1) ↔ (n + 1) % 30 = 0 := by omega
    by_cases h : (n + 1) % 30 = 0
    · rw [Nat.succ_div, if_pos (hiff.2 h)]
      simp [h]
    · rw [Nat.succ_div, if_neg (fun hd => h (hiff.1 hd))]
      simp [h]

/-- On a daily list of length `30 * m` with `m ≥ 1`, the monthly
downsampling keeps exactly `m` points. -/
theorem length_monthlyFilter {l : List ForecastPoint} {m : ℕ} (hm : 1 ≤ m)
    (hl : l.length = 30 * m) : (monthlyFilter l).length = m := by
  rw [monthlyFilter,
    filterWithIndex_length_eq_range' (fun i => (i + 1) % 30 == 0 || i == l.length - 1)]
  rw [show List.range' 0 l.length = List.range l.length from (List.range_eq_range' _).symm]
  rw [List.filter_congr (q := fun i => (i + 1) % 30 == 0)]
  · rw [count_month_boundaries, hl, Nat.mul_div_cancel_left m (by norm_num)]
  · intro i hi
    rw [List.mem_range] at hi
    by_cases hlast : i = l.length - 1
    · subst hlast
      have h0 : (l.length - 1 + 1) % 30 = 0 := by omega
      simp [h0]
    · simp [hlast]

/-- Each day of the loop produces exactly one point. -/
theorem simRun_length (env : ForecastEnv) :
    ∀ (n : ℕ) (st : SimState) (day : ℕ), (simRun env st day n).length = n := by
  intro n
  induction n with
  | zero => intro st day; rfl
  | succ n ih => intro st day; rw [simRun, List.length_cons, ih]

/-- Every point of the daily list is produced by `simDay` at some day index
in the simulated range. -/
theorem mem_simRun {env : ForecastEnv} :
    ∀ {n : ℕ} {st : SimState} {day : ℕ} {p : ForecastPoint},
      p ∈ simRun env st day n →
      ∃ (d : ℕ) (st' : SimState), day ≤ d ∧ d < day + n ∧ p = (simDay env st' d).1 := by
  intro n
  induction n with
  | zero => intro st day p h; cases h
  | succ n ih =>
    intro st day p h
    rw [simRun, List.mem_cons] at h
    rcases h with h | h
    · exact ⟨day, st, le_refl day, by omega, h⟩
    · obtain ⟨d, st', hd1, hd2, hp⟩ := ih h
      exact ⟨d, st', by omega, by omega, hp⟩

/-- The date of the point emitted on a given day. -/
theorem simDay_date (env : ForecastEnv) (st : SimState) (day : ℕ) :
    (simDay env st day).1.date = env.latestTimestamp + (day : ℤ) * 86400000 := rfl

/-- Daily points carry strictly increasing dates. -/
theorem simRun_pairwise_date (env : ForecastEnv) :
    ∀ (n : ℕ) (st : SimState) (day : ℕ),
      (simRun env st day n).Pairwise (fun a b => a.date < b.date) := by
  intro n
  induction n with
  | zero => intro st day; exact List.Pairwise.nil
  | succ n ih =>
    intro st day
    rw [simRun]
    refine List.Pairwise.cons ?_ (ih _ _)
    intro q hq
    obtain ⟨d, st', hd1, _, hqeq⟩ := mem_simRun hq
    rw [hqeq, simDay_date, simDay_date]
    have : (day : ℤ) < (d : ℤ) := by exact_mod_cast hd1
    omega

set_option maxRecDepth 4000 in
/-- The last entry of a `n + 1`-day run is the point that `simDay` produces
from the state reached after `n` days. -/
theorem simRun_getD_last (env : ForecastEnv) :
    ∀ (n : ℕ) (st : SimState) (day : ℕ),
      (simRun env st day (n + 1)).getD n default =
        (simDay env (iterState env st day n) (day + n)).1 := by
  intro n
  induction n with
  | zero => intro st day; rfl
  | succ n ih =>
    intro st day
    rw [simRun]
    rw [List.getD_cons_succ]
    rw [ih]
    rw [iterState]
    have h : day + 1 + n = day + (n + 1) := by omega
    rw [h]

/-- `filterWithIndex` distributes over append, shifting the index. -/
theorem filterWithIndex_append {α : Type*} (Q : ℕ → α → Bool) :
    ∀ (l1 l2 : List α) (i : ℕ),
      filterWithIndex Q i (l1 ++ l2) =
        filterWithIndex Q i l1 ++ filterWithIndex Q (i + l1.length) l2 := by
  intro l1
  induction l1 with
  | nil => intro l2 i; simp [filterWithIndex]
  | cons x xs ih =>
    intro l2 i
    rw [List.cons_append, filterWithIndex, filterWithIndex, ih]
    have hidx : i + 1 + xs.length = i + (xs.length + 1) := by omega
    by_cases h : Q i x
    · rw [if_pos h, if_pos h, List.cons_append, List.length_cons, hidx]
    · rw [if_neg h, if_neg h, List.length_cons, hidx]

/-- `filterWithIndex` of a block on which the predicate never holds is empty. -/
theorem filterWithIndex_eq_nil {α : Type*} (Q : ℕ → α → Bool) :
    ∀ (l : List α) (i : ℕ), (∀ j x, j < l.length → Q (i + j) x = false) →
      filterWithIndex Q i l = [] := by
  intro l
  induction l with
  | nil => intro i _; rfl
  | cons x xs ih =>
    intro i hall
    rw [filterWithIndex]
    have hx : Q i x = false := by
      have := hall 0 x (by simp)
      simpa using this
    rw [hx]
    simp only [Bool.false_eq_true, if_false]
    refine ih (i + 1) ?_
    intro j y hj
    have := hall (j + 1) y (by simpa using Nat.succ_lt_succ hj)
    have harith : i + (j + 1) = i + 1 + j := by omega
    rw [harith] at this
    exact this

/-- A daily list of length 30 downsamples to exactly its final entry. -/
theorem monthlyFilter_of_length_thirty {l : List ForecastPoint}
    (hl : l.length = 30) : monthlyFilter l = [l.getD 29 default] := by
  rcases List.eq_nil_or_concat l with hnil | ⟨l1, x, hx⟩
  · rw [hnil] at hl; cases hl
  · rw [List.concat_eq_append] at hx
    subst hx
    have hlen1 : l1.length = 29 := by
      simp at hl
      omega
    have hget : (l1 ++ [x]).getD 29 default = x := by
      rw [← hlen1]
      simp
    rw [hget, monthlyFilter]
    simp only [hl]
    rw [filterWithIndex_append]
    rw [filterWithIndex_eq_nil _ l1 0 ?side]
    case side =>
      intro j y hj
      rw [hlen1] at hj
      have h1 : ¬ ((j + 1) % 30 = 0) := by omega
      have h2 : ¬ (j = 29) := by omega
      simp [h1, h2]
    rw [hlen1]
    rw [filterWithIndex]
    norm_num [filterWithIndex]

/-! ## Claim theorems -/

/-- C5: for every monthsAhead and scenario (and execution history, random
stream and clock), `generateForecast` on an empty history returns the
empty-history precondition failure and no partial result. -/
theorem generateForecast_empty_history_error (monthsAhead : ℕ)
    (scenario : ScenarioParams) (executionHistory : Option (List ExecutionDataPoint))
    (rng : ℕ → ℝ) (now : ℤ) :
    generateForecast [] monthsAhead scenario executionHistory rng now =
      Except.error "No historical data provided" := rfl

/-- C7: for every validator count, `detectRegime` on an empty history returns
exactly the default calm detection with confidence 0.5, zero dwell and the
calm row (0.85, 0.12, 0.03) of the transition matrix. -/
theorem detectRegime_empty_default (activeValidators : ℝ) :
    detectRegime [] activeValidators =
      { currentRegime := FeeRegime.calm
        regimeConfidence := 0.5
        daysInRegime := 0
        transitionProbability := ⟨0.85, 0.12, 0.03⟩ } := rfl

/-- C10: `generateForecast` is deterministic whenever `executionHistory` is
explicitly supplied: the random stream and the wall clock (reachable only
through the mock-history fallback) do not influence the result. -/
theorem generateForecast_deterministic_of_execHistory
    (history : List HistoricalDataPoint) (monthsAhead : ℕ)
    (scenario : ScenarioParams) (executionHistory : List ExecutionDataPoint)
    (rng1 rng2 : ℕ → ℝ) (now1 now2 : ℤ) :
    generateForecast history monthsAhead scenario (some executionHistory) rng1 now1 =
      generateForecast history monthsAhead scenario (some executionHistory) rng2 now2 := rfl

/-- C3 counterexample: `getTheoreticalAPR` is not strictly decreasing on
positive stakes; at one additional tenth of a Gwei above 1 ETH the floored
square root (hence the APR) is unchanged. -/
theorem getTheoreticalAPR_not_strictly_decreasing :
    (0 : ℝ) < 1 ∧ (1 : ℝ) < 1.0000001 ∧
      getTheoreticalAPR 1 = getTheoreticalAPR 1.0000001 := by
  refine ⟨by norm_num, by norm_num, ?_⟩
  rw [getTheoreticalAPR_pos_eq one_pos, getTheoreticalAPR_pos_eq (by norm_num)]
  rw [show ⌊Real.sqrt (1 * 1e9)⌋ = 31622 from
      floor_sqrt_eq_of_bounds (by norm_num) (by norm_num) (by norm_num),
    show ⌊Real.sqrt (1.0000001 * 1e9)⌋ = 31622 from
      floor_sqrt_eq_of_bounds (by norm_num) (by norm_num) (by norm_num)]

/-- C3 (amended): on stakes of at least one Gwei (10⁻⁹ ETH, below which the
reference divides by a zero floored square root), `getTheoreticalAPR` is
weakly decreasing: `S1 < S2` implies `getTheoreticalAPR S1 ≥ getTheoreticalAPR S2`.
Strictness fails on the plateaus of the floored square root. -/
theorem getTheoreticalAPR_weakly_decreasing {s1 s2 : ℝ}
    (h1 : 1e-9 ≤ s1) (h12 : s1 < s2) :
    getTheoreticalAPR s2 ≤ getTheoreticalAPR s1 := by
  have h1pos : 0 < s1 := by linarith
  have h2pos : 0 < s2 := by linarith
  rw [getTheoreticalAPR_pos_eq h1pos, getTheoreticalAPR_pos_eq h2pos]
  have hF1 : (1 : ℝ) ≤ ((⌊Real.sqrt (s1 * 1e9)⌋ : ℤ) : ℝ) := by
    have h1' : (1 : ℝ) ≤ Real.sqrt (s1 * 1e9) :=
      Real.le_sqrt_of_sq_le (by nlinarith)
    exact_mod_cast Int.le_floor.2 (by exact_mod_cast h1')
  have hF12 : ((⌊Real.sqrt (s1 * 1e9)⌋ : ℤ) : ℝ) ≤ ((⌊Real.sqrt (s2 * 1e9)⌋ : ℤ) : ℝ) := by
    exact_mod_cast Int.floor_le_floor (Real.sqrt_le_sqrt (by nlinarith))
  exact (div_le_div_iff_of_pos_left (by norm_num) (by linarith) (by linarith)).2 hF12

/-- C3 witness: the amended monotonicity at the concrete pair (1, 2). -/
theorem getTheoreticalAPR_weakly_decreasing_witness :
    (1e-9 : ℝ) ≤ 1 ∧ (1 : ℝ) < 2 ∧ getTheoreticalAPR 2 ≤ getTheoreticalAPR 1 :=
  ⟨by norm_num, by norm_num,
    getTheoreticalAPR_weakly_decreasing (by norm_num) (by norm_num)⟩

/-- C9: `getEquilibriumStakeForAPR` inverts `getTheoreticalAPR` up to the
resolution of the floored square root: for stakes of at least 4096 ETH the
round trip lands within a relative tolerance of 10⁻⁶. -/
theorem equilibrium_roundtrip {S : ℝ} (hS : 4096 ≤ S) :
    |getEquilibriumStakeForAPR (getTheoreticalAPR S) - S| ≤ S * 1e-6 := by
  have hSpos : 0 < S := by linarith
  have ha : (0 : ℝ) ≤ S * 1e9 := by positivity
  set F : ℤ := ⌊Real.sqrt (S * 1e9)⌋ with hFdef
  have hFle : (F : ℝ) ≤ Real.sqrt (S * 1e9) := Int.floor_le _
  have hFlt : Real.sqrt (S * 1e9) < (F : ℝ) + 1 := by
    rw [hFdef]
    exact_mod_cast Int.lt_floor_add_one (Real.sqrt (S * 1e9))
  have hF1 : (1 : ℝ) ≤ (F : ℝ) := by
    have h1' : (1 : ℝ) ≤ Real.sqrt (S * 1e9) :=
      Real.le_sqrt_of_sq_le (by nlinarith)
    exact_mod_cast Int.le_floor.2 (by exact_mod_cast h1')
  have hsq : (F : ℝ) ^ 2 ≤ S * 1e9 := by
    have := Real.sq_sqrt ha
    nlinarith [Real.sqrt_nonneg (S * 1e9)]
  have hsq' : S * 1e9 < ((F : ℝ) + 1) ^ 2 := by
    have := Real.sq_sqrt ha
    nlinarith [Real.sqrt_nonneg (S * 1e9)]
  have hAPR : getTheoreticalAPR S = 2103840000 / (F : ℝ) := getTheoreticalAPR_pos_eq hSpos
  have hAPRpos : 0 < getTheoreticalAPR S := by
    rw [hAPR]; positivity
  have hEq : getEquilibriumStakeForAPR (getTheoreticalAPR S) = (F : ℝ) * (F : ℝ) / 1e9 := by
    rw [getEquilibriumStakeForAPR, if_neg (not_le.2 hAPRpos), hAPR]
    have hnum : BASE_REWARD_FACTOR * BASE_REWARDS_PER_EPOCH * EPOCHS_PER_YEAR * 100 =
        (2103840000 : ℝ) := by
      norm_num [BASE_REWARD_FACTOR, BASE_REWARDS_PER_EPOCH, EPOCHS_PER_YEAR,
        EPOCHS_PER_DAY, SECONDS_PER_EPOCH, SECONDS_PER_SLOT, SLOTS_PER_EPOCH]
    rw [hnum]
    have hkey : (2103840000 : ℝ) / (2103840000 / (F : ℝ)) = (F : ℝ) := by
      rw [div_div_eq_mul_div, mul_comm, mul_div_assoc,
        div_self (by norm_num : (2103840000 : ℝ) ≠ 0), mul_one]
    show 2103840000 / (2103840000 / (F : ℝ)) * (2103840000 / (2103840000 / (F : ℝ))) / 1e9 = _
    rw [hkey]
  rw [hEq, abs_le]
  constructor
  · -- lower bound: S - F²/1e9 ≤ S·1e-6, using F² > (√a − 1)² ≥ a − 2√a
    have hsqrt_le : Real.sqrt (S * 1e9) ≤ (1000 * S - 1) / 2 := by
      rw [show (1000 * S - 1) / 2 = ((1000 * S - 1) / 2) from rfl]
      refine Real.sqrt_le_left (by nlinarith) |>.2 ?_
      nlinarith
    nlinarith
  · -- upper bound: F²/1e9 ≤ S since F² ≤ S·1e9
    nlinarith

/-- C9 witness: the round trip at the representative stake 34 500 000 ETH. -/
theorem equilibrium_roundtrip_witness :
    (4096 : ℝ) ≤ 34500000 ∧
      |getEquilibriumStakeForAPR (getTheoreticalAPR 34500000) - 34500000| ≤
        34500000 * 1e-6 :=
  ⟨by norm_num, equilibrium_roundtrip (by norm_num)⟩

/-- Past its emptiness check, `generateForecast` is the downsampled daily
loop over the `forecastSetup` environment and initial state. -/
theorem generateForecast_eq_ok {history : List HistoricalDataPoint}
    (monthsAhead : ℕ) (scenario : ScenarioParams)
    (eh : Option (List ExecutionDataPoint)) (rng : ℕ → ℝ) (now : ℤ)
    (hne : ¬ history.length = 0) :
    generateForecast history monthsAhead scenario eh rng now =
      .ok (monthlyFilter (simRun (forecastSetup history scenario eh rng now).1
        (forecastSetup history scenario eh rng now).2 1 (monthsAhead * 30))) := by
  rw [generateForecast, if_neg hne]
  rfl

/-- A one-month run returns exactly the singleton of the point that `simDay`
emits at day 30 from the day-29 state. -/
theorem generateForecast_one_month {history : List HistoricalDataPoint}
    (scenario : ScenarioParams) (eh : Option (List ExecutionDataPoint))
    (rng : ℕ → ℝ) (now : ℤ) (hne : ¬ history.length = 0) :
    generateForecast history 1 scenario eh rng now =
      .ok [(simDay (forecastSetup history scenario eh rng now).1
        (iterState (forecastSetup history scenario eh rng now).1
          (forecastSetup history scenario eh rng now).2 1 29) 30).1] := by
  rw [generateForecast_eq_ok 1 scenario eh rng now hne,
    show (1 * 30 : ℕ) = 30 from rfl,
    monthlyFilter_of_length_thirty (by rw [simRun_length]),
    show (30 : ℕ) = 29 + 1 from rfl, simRun_getD_last]

/-- The mean-reversion target of every regime is positive. -/
theorem MEAN_REVERSION_target_pos (r : FeeRegime) : 0 < MEAN_REVERSION_target r := by
  cases r <;> norm_num [MEAN_REVERSION_target]

/-- The mean-reversion half-life of every regime is positive. -/
theorem MEAN_REVERSION_halfLife_pos (r : FeeRegime) : 0 < MEAN_REVERSION_halfLife r := by
  cases r <;> norm_num [MEAN_REVERSION_halfLife]

/-- For a non-negative current yield the forecast execution APR is strictly
positive (the regime targets pull the blend above zero). -/
theorem annualizedAPR_pos {y : ℝ} (hy : 0 ≤ y) (r : FeeRegime) (d : ℕ) (v : ℝ) :
    0 < (forecastExecutionYield y r d v).annualizedAPR := by
  rw [forecastExecutionYield]
  dsimp only
  have hdecay_pos : 0 < (0.5 : ℝ) ^ ((d : ℝ) / MEAN_REVERSION_halfLife r) :=
    Real.rpow_pos_of_pos (by norm_num) _
  have hdecay_le : (0.5 : ℝ) ^ ((d : ℝ) / MEAN_REVERSION_halfLife r) ≤ 1 :=
    Real.rpow_le_one (by norm_num) (by norm_num)
      (div_nonneg (Nat.cast_nonneg d) (MEAN_REVERSION_halfLife_pos r).le)
  have ht1 := MEAN_REVERSION_target_pos r
  have ht2 := MEAN_REVERSION_target_pos
    (mostLikelyRegime (markovIter d (regimeOneHot r)))
  nlinarith [mul_nonneg hy hdecay_pos.le]

/-- The two annualized sub-components of the execution forecast add up to its
annualized APR. -/
theorem forecastExecutionYield_components_sum (y : ℝ) (r : FeeRegime) (d : ℕ) (v : ℝ) :
    (forecastExecutionYield y r d v).priorityFees +
      (forecastExecutionYield y r d v).mevRewards =
      (forecastExecutionYield y r d v).annualizedAPR := by
  rw [forecastExecutionYield]
  dsimp only
  ring

/-- The driver record emitted by one simulated day, in closed form. -/
theorem simDay_drivers (env : ForecastEnv) (st : SimState) (day : ℕ) :
    (simDay env st day).1.drivers =
      { consensusAPR := getTheoreticalAPR st.currentStake
        executionAPR := (forecastExecutionYield env.currentExecYield env.baseRegime day
            st.currentValidators).annualizedAPR * env.scenario.mevMultiplier
        totalAPR := getTheoreticalAPR st.currentStake +
          (forecastExecutionYield env.currentExecYield env.baseRegime day
            st.currentValidators).annualizedAPR * env.scenario.mevMultiplier
        consensusPct := getTheoreticalAPR st.currentStake /
          (getTheoreticalAPR st.currentStake +
            (forecastExecutionYield env.currentExecYield env.baseRegime day
              st.currentValidators).annualizedAPR * env.scenario.mevMultiplier) * 100
        executionPct := (forecastExecutionYield env.currentExecYield env.baseRegime day
            st.currentValidators).annualizedAPR * env.scenario.mevMultiplier /
          (getTheoreticalAPR st.currentStake +
            (forecastExecutionYield env.currentExecYield env.baseRegime day
              st.currentValidators).annualizedAPR * env.scenario.mevMultiplier) * 100
        priorityFeesPct := (forecastExecutionYield env.currentExecYield env.baseRegime day
            st.currentValidators).priorityFees /
          ((forecastExecutionYield env.currentExecYield env.baseRegime day
            st.currentValidators).annualizedAPR * env.scenario.mevMultiplier) *
          ((forecastExecutionYield env.currentExecYield env.baseRegime day
            st.currentValidators).annualizedAPR * env.scenario.mevMultiplier /
            (getTheoreticalAPR st.currentStake +
              (forecastExecutionYield env.currentExecYield env.baseRegime day
                st.currentValidators).annualizedAPR * env.scenario.mevMultiplier)) * 100
        mevPct := (forecastExecutionYield env.currentExecYield env.baseRegime day
            st.currentValidators).mevRewards /
          ((forecastExecutionYield env.currentExecYield env.baseRegime day
            st.currentValidators).annualizedAPR * env.scenario.mevMultiplier) *
          ((forecastExecutionYield env.currentExecYield env.baseRegime day
            st.currentValidators).annualizedAPR * env.scenario.mevMultiplier /
            (getTheoreticalAPR st.currentStake +
              (forecastExecutionYield env.currentExecYield env.baseRegime day
                st.currentValidators).annualizedAPR * env.scenario.mevMultiplier)) * 100
        feeRegime := (forecastExecutionYield env.currentExecYield env.baseRegime day
          st.currentValidators).regime } := rfl

/-- C8: for every point emitted by `generateForecast` with nonzero total APR,
the consensus and execution percentage shares sum to exactly 100. -/
theorem drivers_pct_sum_100 {history : List HistoricalDataPoint} {monthsAhead : ℕ}
    {scenario : ScenarioParams} {eh : Option (List ExecutionDataPoint)}
    {rng : ℕ → ℝ} {now : ℤ} {l : List ForecastPoint}
    (hok : generateForecast history monthsAhead scenario eh rng now = .ok l)
    {p : ForecastPoint} (hp : p ∈ l) (hT : p.drivers.totalAPR ≠ 0) :
    p.drivers.consensusPct + p.drivers.executionPct = 100 := by
  by_cases hne : history.length = 0
  · rw [generateForecast, if_pos hne] at hok
    cases hok
  · rw [generateForecast_eq_ok monthsAhead scenario eh rng now hne] at hok
    injection hok with hok
    subst hok
    obtain ⟨d, st', _, _, rfl⟩ := mem_simRun (mem_of_mem_monthlyFilter hp)
    rw [simDay_drivers] at hT ⊢
    dsimp only at hT ⊢
    field_simp
    ring

/-- C8 witness: the concrete baseline one-month run emits `samplePoint`,
whose total APR is nonzero and whose shares sum to 100. -/
theorem drivers_pct_sum_100_witness :
    generateForecast sampleHistory 1 DEFAULT_SCENARIO (some []) zeroRng 0 =
        .ok [samplePoint] ∧
      samplePoint ∈ [samplePoint] ∧ samplePoint.drivers.totalAPR ≠ 0 ∧
      samplePoint.drivers.consensusPct + samplePoint.drivers.executionPct = 100 := by
  have hok : generateForecast sampleHistory 1 DEFAULT_SCENARIO (some []) zeroRng 0 =
      .ok [samplePoint] :=
    generateForecast_one_month DEFAULT_SCENARIO (some []) zeroRng 0 (by simp [sampleHistory])
  have hyield : (forecastSetup sampleHistory DEFAULT_SCENARIO (some []) zeroRng 0).1.currentExecYield
      = 0.001 := rfl
  have hmult : (forecastSetup sampleHistory DEFAULT_SCENARIO
      (some []) zeroRng 0).1.scenario.mevMultiplier = 1 := by
    show DEFAULT_SCENARIO.mevMultiplier = 1
    norm_num [ DEFAULT_SCENARIO]
  have hT : samplePoint.drivers.totalAPR ≠ 0 := by
    rw [samplePoint, simDay_drivers]
    dsimp only
    rw [hyield, hmult, mul_one]
    have h1 := getTheoreticalAPR_nonneg
      ((iterState (forecastSetup sampleHistory DEFAULT_SCENARIO (some []) zeroRng 0).1
        (forecastSetup sampleHistory DEFAULT_SCENARIO (some []) zeroRng 0).2 1 29).currentStake)
    have h2 := annualizedAPR_pos (by norm_num : (0:ℝ) ≤ 0.001)
      (forecastSetup sampleHistory DEFAULT_SCENARIO (some []) zeroRng 0).1.baseRegime 30
      ((iterState (forecastSetup sampleHistory DEFAULT_SCENARIO (some []) zeroRng 0).1
        (forecastSetup sampleHistory DEFAULT_SCENARIO (some []) zeroRng 0).2 1 29).currentValidators)
    intro h0
    linarith
  exact ⟨hok, List.mem_singleton_self _, hT, drivers_pct_sum_100 hok (List.mem_singleton_self _) hT⟩

/-- C6: for every non-empty history and `monthsAhead ≥ 1`, `generateForecast`
returns exactly `monthsAhead` forecast points (one per 30-day boundary,
including the final day) with strictly increasing dates. -/
theorem generateForecast_monthly_snapshot_count {history : List HistoricalDataPoint}
    {monthsAhead : ℕ} (scenario : ScenarioParams)
    (eh : Option (List ExecutionDataPoint)) (rng : ℕ → ℝ) (now : ℤ)
    (hne : history ≠ []) (hm : 1 ≤ monthsAhead) :
    ∃ l, generateForecast history monthsAhead scenario eh rng now = .ok l ∧
      l.length = monthsAhead ∧ l.Pairwise (fun a b => a.date < b.date) := by
  have hne' : ¬ history.length = 0 := fun h0 => hne (List.length_eq_zero.1 h0)
  refine ⟨_, generateForecast_eq_ok monthsAhead scenario eh rng now hne', ?_, ?_⟩
  · exact length_monthlyFilter hm (by rw [simRun_length, Nat.mul_comm])
  · exact List.Pairwise.sublist (filterWithIndex_sublist _ _ _)
      (simRun_pairwise_date _ _ _ _)

/-- C6 witness: the spec's example call (`monthsAhead = 6` on a non-empty
history) returns exactly 6 points with strictly increasing dates. -/
theorem generateForecast_monthly_snapshot_count_witness :
    sampleHistory ≠ [] ∧ (1 : ℕ) ≤ 6 ∧
      ∃ l, generateForecast sampleHistory 6 DEFAULT_SCENARIO (some []) zeroRng 0 = .ok l ∧
        l.length = 6 ∧ l.Pairwise (fun a b => a.date < b.date) :=
  ⟨by simp [sampleHistory], by norm_num,
    generateForecast_monthly_snapshot_count DEFAULT_SCENARIO (some []) zeroRng 0
      (by simp [sampleHistory]) (by norm_num)⟩

/-- The two execution sub-shares of one simulated day sum to the execution
share divided by the scenario's MEV multiplier (the sub-components are taken
from the unscaled forecast while the normalizing denominator is scaled). -/
theorem simDay_exec_pct_split (env : ForecastEnv) (st : SimState) (day : ℕ)
    (hT : (simDay env st day).1.drivers.totalAPR ≠ 0)
    (hE : (simDay env st day).1.drivers.executionAPR ≠ 0) :
    (simDay env st day).1.drivers.priorityFeesPct + (simDay env st day).1.drivers.mevPct =
      (simDay env st day).1.drivers.executionPct / env.scenario.mevMultiplier := by
  rw [simDay_drivers] at hT hE ⊢
  dsimp only at hT hE ⊢
  have hmult : env.scenario.mevMultiplier ≠ 0 := right_ne_zero_of_mul hE
  have hsum := forecastExecutionYield_components_sum env.currentExecYield env.baseRegime
    day st.currentValidators
  field_simp
  linear_combination (100 * env.scenario.mevMultiplier *
    (getTheoreticalAPR st.currentStake +
      (forecastExecutionYield env.currentExecYield env.baseRegime day
        st.currentValidators).annualizedAPR * env.scenario.mevMultiplier)) * hsum

/-- C1 (amended): for every point emitted by `generateForecast` with nonzero
total APR and nonzero scaled execution APR, `priorityFeesPct + mevPct` equals
`executionPct / mevMultiplier` — so the claimed identity
`priorityFeesPct + mevPct ≈ executionPct` holds exactly when the scenario's
`mevMultiplier` is 1 (the baseline preset) and fails for the bullish (1.3)
and bearish (0.7) presets. -/
theorem drivers_exec_pct_split {history : List HistoricalDataPoint} {monthsAhead : ℕ}
    {scenario : ScenarioParams} {eh : Option (List ExecutionDataPoint)}
    {rng : ℕ → ℝ} {now : ℤ} {l : List ForecastPoint}
    (hok : generateForecast history monthsAhead scenario eh rng now = .ok l)
    {p : ForecastPoint} (hp : p ∈ l) (hT : p.drivers.totalAPR ≠ 0)
    (hE : p.drivers.executionAPR ≠ 0) :
    p.drivers.priorityFeesPct + p.drivers.mevPct =
      p.drivers.executionPct / scenario.mevMultiplier := by
  by_cases hne : history.length = 0
  · rw [generateForecast, if_pos hne] at hok
    cases hok
  · rw [generateForecast_eq_ok monthsAhead scenario eh rng now hne] at hok
    injection hok with hok
    subst hok
    obtain ⟨d, st', _, _, rfl⟩ := mem_simRun (mem_of_mem_monthlyFilter hp)
    exact simDay_exec_pct_split _ st' d hT hE

/-- C1 witness: the concrete baseline one-month run emits `samplePoint`, both
nonzero-APR hypotheses hold there, and the split identity follows. -/
theorem drivers_exec_pct_split_witness :
    generateForecast sampleHistory 1 DEFAULT_SCENARIO (some []) zeroRng 0 =
        .ok [samplePoint] ∧
      samplePoint ∈ [samplePoint] ∧ samplePoint.drivers.totalAPR ≠ 0 ∧
      samplePoint.drivers.executionAPR ≠ 0 ∧
      samplePoint.drivers.priorityFeesPct + samplePoint.drivers.mevPct =
        samplePoint.drivers.executionPct / DEFAULT_SCENARIO.mevMultiplier := by
  have hok : generateForecast sampleHistory 1 DEFAULT_SCENARIO (some []) zeroRng 0 =
      .ok [samplePoint] :=
    generateForecast_one_month DEFAULT_SCENARIO (some []) zeroRng 0 (by simp [sampleHistory])
  have hyield : (forecastSetup sampleHistory DEFAULT_SCENARIO (some []) zeroRng 0).1.currentExecYield
      = 0.001 := rfl
  have hmult : (forecastSetup sampleHistory DEFAULT_SCENARIO
      (some []) zeroRng 0).1.scenario.mevMultiplier = 1 := by
    show DEFAULT_SCENARIO.mevMultiplier = 1
    norm_num [ DEFAULT_SCENARIO]
  have h1 := getTheoreticalAPR_nonneg
    ((iterState (forecastSetup sampleHistory DEFAULT_SCENARIO (some []) zeroRng 0).1
      (forecastSetup sampleHistory DEFAULT_SCENARIO (some []) zeroRng 0).2 1 29).currentStake)
  have h2 := annualizedAPR_pos (by norm_num : (0:ℝ) ≤ 0.001)
    (forecastSetup sampleHistory DEFAULT_SCENARIO (some []) zeroRng 0).1.baseRegime 30
    ((iterState (forecastSetup sampleHistory DEFAULT_SCENARIO (some []) zeroRng 0).1
      (forecastSetup sampleHistory DEFAULT_SCENARIO (some []) zeroRng 0).2 1 29).currentValidators)
  have hT : samplePoint.drivers.totalAPR ≠ 0 := by
    rw [samplePoint, simDay_drivers]
    dsimp only
    rw [hyield, hmult, mul_one]
    intro h0
    linarith
  have hE : samplePoint.drivers.executionAPR ≠ 0 := by
    rw [samplePoint, simDay_drivers]
    dsimp only
    rw [hyield, hmult, mul_one]
    linarith
  exact ⟨hok, List.mem_singleton_self _, hT, hE,
    drivers_exec_pct_split hok (List.mem_singleton_self _) hT hE⟩

/-- C1 counterexample: in the one-month bullish-preset run on concrete
inputs, the emitted point has nonzero total APR and nonzero scaled execution
APR, yet `priorityFeesPct + mevPct` is *not* `executionPct` (it is
`executionPct / 1.3`). -/
theorem drivers_exec_pct_split_counterexample :
    generateForecast sampleHistory 1 bullishParams (some []) zeroRng 0 =
        .ok [sampleBullishPoint] ∧
      sampleBullishPoint.drivers.totalAPR ≠ 0 ∧
      sampleBullishPoint.drivers.executionAPR ≠ 0 ∧
      sampleBullishPoint.drivers.priorityFeesPct + sampleBullishPoint.drivers.mevPct ≠
        sampleBullishPoint.drivers.executionPct := by
  have hok : generateForecast sampleHistory 1 bullishParams (some []) zeroRng 0 =
      .ok [sampleBullishPoint] :=
    generateForecast_one_month bullishParams (some []) zeroRng 0 (by simp [sampleHistory])
  have hyield : (forecastSetup sampleHistory bullishParams (some []) zeroRng 0).1.currentExecYield
      = 0.001 := rfl
  have hmult : (forecastSetup sampleHistory bullishParams
      (some []) zeroRng 0).1.scenario.mevMultiplier = 1.3 := by
    show bullishParams.mevMultiplier = 1.3
    norm_num [bullishParams]
  have h1 := getTheoreticalAPR_nonneg
    ((iterState (forecastSetup sampleHistory bullishParams (some []) zeroRng 0).1
      (forecastSetup sampleHistory bullishParams (some []) zeroRng 0).2 1 29).currentStake)
  have h2 := annualizedAPR_pos (by norm_num : (0:ℝ) ≤ 0.001)
    (forecastSetup sampleHistory bullishParams (some []) zeroRng 0).1.baseRegime 30
    ((iterState (forecastSetup sampleHistory bullishParams (some []) zeroRng 0).1
      (forecastSetup sampleHistory bullishParams (some []) zeroRng 0).2 1 29).currentValidators)
  have hTpos : 0 < sampleBullishPoint.drivers.totalAPR := by
    rw [sampleBullishPoint, simDay_drivers]
    dsimp only
    rw [hyield, hmult]
    nlinarith
  have hEpos : 0 < sampleBullishPoint.drivers.executionAPR := by
    rw [sampleBullishPoint, simDay_drivers]
    dsimp only
    rw [hyield, hmult]
    nlinarith
  have hPpos : 0 < sampleBullishPoint.drivers.executionPct := by
    rw [sampleBullishPoint, simDay_drivers] at hTpos hEpos ⊢
    dsimp only at hTpos hEpos ⊢
    positivity
  have hsplit := simDay_exec_pct_split
    (forecastSetup sampleHistory bullishParams (some []) zeroRng 0).1
    (iterState (forecastSetup sampleHistory bullishParams (some []) zeroRng 0).1
      (forecastSetup sampleHistory bullishParams (some []) zeroRng 0).2 1 29) 30
    (ne_of_gt hTpos) (ne_of_gt hEpos)
  rw [hmult] at hsplit
  refine ⟨hok, ne_of_gt hTpos, ne_of_gt hEpos, ?_⟩
  rw [show sampleBullishPoint.drivers.priorityFeesPct + sampleBullishPoint.drivers.mevPct =
    sampleBullishPoint.drivers.executionPct / 1.3 from hsplit]
  intro hcontra
  rw [div_eq_iff (by norm_num : (1.3 : ℝ) ≠ 0)] at hcontra
  linarith

/-- `forecastExecutionYield` never reads its validator-count argument. -/
theorem forecastExecutionYield_validators_irrelevant (y : ℝ) (r : FeeRegime)
    (d : ℕ) (v v' : ℝ) :
    forecastExecutionYield y r d v = forecastExecutionYield y r d v' := rfl

/-- The forecast execution APR is strictly increasing in the current yield
(the mean-reversion decay factor is positive). -/
theorem annualizedAPR_lt_of_yield_lt {y1 y2 : ℝ} (h : y1 < y2) (r : FeeRegime)
    (d : ℕ) (v : ℝ) :
    (forecastExecutionYield y1 r d v).annualizedAPR <
      (forecastExecutionYield y2 r d v).annualizedAPR := by
  rw [forecastExecutionYield, forecastExecutionYield]
  dsimp only
  have hα : 0 < (0.5 : ℝ) ^ ((d : ℝ) / MEAN_REVERSION_halfLife r) :=
    Real.rpow_pos_of_pos (by norm_num) _
  nlinarith [mul_pos hα (sub_pos.2 h)]

/-- C2: the output of `generateForecast` is *not* invariant under permuting
the supplied `executionHistory`.  `execHistB` is a permutation of
`execHistA` (the same eight records, with the single fee-carrying record
moved from first to last), yet the two runs return different forecasts: the
engine reads `executionHistory.slice(0, 7)` without sorting, so the recent
yield window mean is 1/1078125 in one order and 0 in the other.  This
exhibits the code bug — the spec's ordering contract says the engine must
sort, and `detectRegime` in the same module does sort its window. -/
theorem generateForecast_not_permutation_invariant :
    execHistB.Perm execHistA ∧
      generateForecast sampleHistory 1 DEFAULT_SCENARIO (some execHistA) zeroRng 0 ≠
        generateForecast sampleHistory 1 DEFAULT_SCENARIO (some execHistB) zeroRng 0 := by
  constructor
  · exact List.perm_append_singleton _ _
  · intro hEq
    have hokA := @generateForecast_one_month sampleHistory DEFAULT_SCENARIO
      (some execHistA) zeroRng 0 (by simp [sampleHistory])
    have hokB := @generateForecast_one_month sampleHistory DEFAULT_SCENARIO
      (some execHistB) zeroRng 0 (by simp [sampleHistory])
    rw [hokA, hokB] at hEq
    injection hEq with hEq
    injection hEq with hEq
    have hAPR := congrArg (fun p => p.drivers.executionAPR) hEq
    dsimp only at hAPR
    rw [simDay_drivers, simDay_drivers] at hAPR
    dsimp only at hAPR
    have hyA : (forecastSetup sampleHistory DEFAULT_SCENARIO (some execHistA) zeroRng 0).1.currentExecYield
        = mean ((execHistA.take 7).map (pointYield 1078125)) := rfl
    have hyB : (forecastSetup sampleHistory DEFAULT_SCENARIO (some execHistB) zeroRng 0).1.currentExecYield
        = mean ((execHistB.take 7).map (pointYield 1078125)) := rfl
    have hyA' : mean ((execHistA.take 7).map (pointYield 1078125)) = 1 / 1078125 := by
      norm_num [execHistA, execPtA, execRest, mean, pointYield]
    have hyB' : mean ((execHistB.take 7).map (pointYield 1078125)) = 0 := by
      norm_num [execHistB, execRest, mean, pointYield]
    have hregB : (forecastSetup sampleHistory DEFAULT_SCENARIO (some execHistB) zeroRng 0).1.baseRegime
        = (forecastSetup sampleHistory DEFAULT_SCENARIO (some execHistA) zeroRng 0).1.baseRegime := rfl
    have hmult : (forecastSetup sampleHistory DEFAULT_SCENARIO
        (some execHistA) zeroRng 0).1.scenario.mevMultiplier = 1 := by
      show DEFAULT_SCENARIO.mevMultiplier = 1
      norm_num [ DEFAULT_SCENARIO]
    have hmult' : (forecastSetup sampleHistory DEFAULT_SCENARIO
        (some execHistB) zeroRng 0).1.scenario.mevMultiplier = 1 := by
      show DEFAULT_SCENARIO.mevMultiplier = 1
      norm_num [ DEFAULT_SCENARIO]
    rw [hyA, hyB, hyA', hyB', hregB, hmult, hmult', mul_one, mul_one,
      forecastExecutionYield_validators_irrelevant _ _ _ _ 0,
      forecastExecutionYield_validators_irrelevant 0 _ _ _ 0] at hAPR
    exact absurd hAPR (ne_of_gt (annualizedAPR_lt_of_yield_lt (by norm_num) _ 30 0))

/-- `Except.bind` on a success is the continuation. -/
theorem exceptBind_ok {ε α β : Type} (a : α) (f : α → Except ε β) :
    ((Except.ok a : Except ε α) >>= f) = f a := rfl

/-- The updated stake of one simulated day, in closed form. -/
theorem simDay_state_stake (env : ForecastEnv) (st : SimState) (day : ℕ) :
    (simDay env st day).2.currentStake =
      max 0 (st.currentStake +
        (if 0 < applyAPRFeedback
              (env.trend.dailyGrowthRate +
                env.scenario.netFlowBias * env.maxDailyChange * 0.1)
              (getTheoreticalAPR st.currentStake +
                (forecastExecutionYield env.currentExecYield env.baseRegime day
                  st.currentValidators).annualizedAPR * env.scenario.mevMultiplier) 4.0
          then min (applyAPRFeedback
              (env.trend.dailyGrowthRate +
                env.scenario.netFlowBias * env.maxDailyChange * 0.1)
              (getTheoreticalAPR st.currentStake +
                (forecastExecutionYield env.currentExecYield env.baseRegime day
                  st.currentValidators).annualizedAPR * env.scenario.mevMultiplier) 4.0)
            env.maxDailyChange
          else max (applyAPRFeedback
              (env.trend.dailyGrowthRate +
                env.scenario.netFlowBias * env.maxDailyChange * 0.1)
              (getTheoreticalAPR st.currentStake +
                (forecastExecutionYield env.currentExecYield env.baseRegime day
                  st.currentValidators).annualizedAPR * env.scenario.mevMultiplier) 4.0)
            (-env.maxDailyChange))) := rfl

/-- The stake recorded on the emitted point is the updated running stake. -/
theorem simDay_point_stake (env : ForecastEnv) (st : SimState) (day : ℕ) :
    (simDay env st day).1.totalStakedETH = (simDay env st day).2.currentStake := rfl

/-- With a flat trend and a non-positive flow bias, a simulated day never
raises the stake above `max 0` of the previous stake. -/
theorem simDay_stake_upper (env : ForecastEnv) (st : SimState) (day : ℕ)
    (hg : env.trend.dailyGrowthRate = 0) (hy : 0 ≤ env.currentExecYield)
    (hmult : 0 ≤ env.scenario.mevMultiplier) (hmc : 0 ≤ env.maxDailyChange)
    (hbias : env.scenario.netFlowBias ≤ 0) :
    (simDay env st day).2.currentStake ≤ max 0 st.currentStake := by
  rw [simDay_state_stake, hg]
  have hA := annualizedAPR_pos hy env.baseRegime day st.currentValidators
  have hc := getTheoreticalAPR_nonneg st.currentStake
  have hT : 0 ≤ getTheoreticalAPR st.currentStake +
      (forecastExecutionYield env.currentExecYield env.baseRegime day
        st.currentValidators).annualizedAPR * env.scenario.mevMultiplier :=
    add_nonneg hc (mul_nonneg hA.le hmult)
  rw [applyAPRFeedback]
  have heg : (0 + env.scenario.netFlowBias * env.maxDailyChange * 0.1) *
      (1 + (getTheoreticalAPR st.currentStake +
        (forecastExecutionYield env.currentExecYield env.baseRegime day
          st.currentValidators).annualizedAPR * env.scenario.mevMultiplier - 4.0) * 0.1) ≤ 0 := by
    apply mul_nonpos_of_nonpos_of_nonneg
    · nlinarith
    · nlinarith
  rw [if_neg (not_lt.2 heg)]
  have hgrow : max ((0 + env.scenario.netFlowBias * env.maxDailyChange * 0.1) *
      (1 + (getTheoreticalAPR st.currentStake +
        (forecastExecutionYield env.currentExecYield env.baseRegime day
          st.currentValidators).annualizedAPR * env.scenario.mevMultiplier - 4.0) * 0.1))
      (-env.maxDailyChange) ≤ 0 := max_le heg (by linarith)
  exact max_le_max (le_refl 0) (by linarith)

/-- With a flat trend and a non-negative flow bias, a simulated day never
lowers the stake below `max 0` of the previous stake. -/
theorem simDay_stake_lower (env : ForecastEnv) (st : SimState) (day : ℕ)
    (hg : env.trend.dailyGrowthRate = 0) (hy : 0 ≤ env.currentExecYield)
    (hmult : 0 ≤ env.scenario.mevMultiplier) (hmc : 0 ≤ env.maxDailyChange)
    (hbias : 0 ≤ env.scenario.netFlowBias) :
    max 0 st.currentStake ≤ (simDay env st day).2.currentStake := by
  rw [simDay_state_stake, hg]
  have hA := annualizedAPR_pos hy env.baseRegime day st.currentValidators
  have hc := getTheoreticalAPR_nonneg st.currentStake
  have hT : 0 ≤ getTheoreticalAPR st.currentStake +
      (forecastExecutionYield env.currentExecYield env.baseRegime day
        st.currentValidators).annualizedAPR * env.scenario.mevMultiplier :=
    add_nonneg hc (mul_nonneg hA.le hmult)
  rw [applyAPRFeedback]
  have heg : 0 ≤ (0 + env.scenario.netFlowBias * env.maxDailyChange * 0.1) *
      (1 + (getTheoreticalAPR st.currentStake +
        (forecastExecutionYield env.currentExecYield env.baseRegime day
          st.currentValidators).annualizedAPR * env.scenario.mevMultiplier - 4.0) * 0.1) := by
    apply mul_nonneg
    · nlinarith
    · nlinarith
  have hgrow : 0 ≤ (if 0 < (0 + env.scenario.netFlowBias * env.maxDailyChange * 0.1) *
      (1 + (getTheoreticalAPR st.currentStake +
        (forecastExecutionYield env.currentExecYield env.baseRegime day
          st.currentValidators).annualizedAPR * env.scenario.mevMultiplier - 4.0) * 0.1)
      then min ((0 + env.scenario.netFlowBias * env.maxDailyChange * 0.1) *
        (1 + (getTheoreticalAPR st.currentStake +
          (forecastExecutionYield env.currentExecYield env.baseRegime day
            st.currentValidators).annualizedAPR * env.scenario.mevMultiplier - 4.0) * 0.1))
        env.maxDailyChange
      else max ((0 + env.scenario.netFlowBias * env.maxDailyChange * 0.1) *
        (1 + (getTheoreticalAPR st.currentStake +
          (forecastExecutionYield env.currentExecYield env.baseRegime day
            st.currentValidators).annualizedAPR * env.scenario.mevMultiplier - 4.0) * 0.1))
        (-env.maxDailyChange)) := by
    split
    · exact le_min heg hmc
    · exact le_trans heg (le_max_left _ _)
  exact max_le_max (le_refl 0) (by linarith)

/-- Pointwise stake comparison of two runs whose daily steps respectively
never exceed and never fall below `max 0` of the previous stake. -/
theorem simRun_forall2_stake {envA envB : ForecastEnv}
    (hA : ∀ st day, (simDay envA st day).2.currentStake ≤ max 0 st.currentStake)
    (hB : ∀ st day, max 0 st.currentStake ≤ (simDay envB st day).2.currentStake) :
    ∀ (n : ℕ) (stA stB : SimState) (day : ℕ),
      stA.currentStake ≤ stB.currentStake →
      List.Forall₂ (fun p q => p.totalStakedETH ≤ q.totalStakedETH)
        (simRun envA stA day n) (simRun envB stB day n) := by
  intro n
  induction n with
  | zero => intro stA stB day _; exact List.Forall₂.nil
  | succ n ih =>
    intro stA stB day hle
    rw [simRun, simRun]
    have hstep : (simDay envA stA day).2.currentStake ≤ (simDay envB stB day).2.currentStake :=
      le_trans (hA stA day) (le_trans (max_le_max (le_refl 0) hle) (hB stB day))
    exact List.Forall₂.cons
      (by rw [simDay_point_stake, simDay_point_stake]; exact hstep)
      (ih _ _ _ hstep)

/-- An index-only `filterWithIndex` preserves `Forall₂`. -/
theorem filterWithIndex_forall2 {α β : Type*} {R : α → β → Prop} (Q : ℕ → Bool) :
    ∀ {l1 : List α} {l2 : List β}, List.Forall₂ R l1 l2 → ∀ (i : ℕ),
      List.Forall₂ R (filterWithIndex (fun j _ => Q j) i l1)
        (filterWithIndex (fun j _ => Q j) i l2) := by
  intro l1 l2 h
  induction h with
  | nil => intro i; exact List.Forall₂.nil
  | cons hxy hrest ih =>
    intro i
    rw [filterWithIndex, filterWithIndex]
    by_cases hq : Q i
    · rw [if_pos hq, if_pos hq]
      exact List.Forall₂.cons hxy (ih (i + 1))
    · rw [if_neg hq, if_neg hq]
      exact ih (i + 1)

/-- The monthly downsampling preserves pointwise stake comparison of two
equally long daily lists. -/
theorem monthlyFilter_forall2 {l1 l2 : List ForecastPoint}
    (h : List.Forall₂ (fun p q => p.totalStakedETH ≤ q.totalStakedETH) l1 l2) :
    List.Forall₂ (fun p q => p.totalStakedETH ≤ q.totalStakedETH)
      (monthlyFilter l1) (monthlyFilter l2) := by
  have hlen : l1.length = l2.length := h.length_eq
  rw [monthlyFilter, monthlyFilter, hlen]
  exact filterWithIndex_forall2 (fun j => (j + 1) % 30 == 0 || j == l2.length - 1) h 0

/-- The scenario recorded in the setup environment is the scenario argument. -/
theorem forecastSetup_scenario (history : List HistoricalDataPoint)
    (scenario : ScenarioParams) (eh : Option (List ExecutionDataPoint))
    (rng : ℕ → ℝ) (now : ℤ) :
    (forecastSetup history scenario eh rng now).1.scenario = scenario := rfl

/-- The churn-bound daily stake change is never negative. -/
theorem getMaxDailyStakeChange_nonneg (v : ℝ) : 0 ≤ getMaxDailyStakeChange v := by
  show 0 ≤ getChurnLimit v * EPOCHS_PER_DAY * 32
  rw [getChurnLimit]
  have h4 : (0 : ℝ) ≤ max MIN_PER_EPOCH_CHURN_LIMIT (jsFloor (v / CHURN_LIMIT_QUOTIENT)) :=
    le_trans (by norm_num [MIN_PER_EPOCH_CHURN_LIMIT]) (le_max_left _ _)
  have hE : (0 : ℝ) ≤ EPOCHS_PER_DAY := by
    norm_num [EPOCHS_PER_DAY, SECONDS_PER_EPOCH, SECONDS_PER_SLOT, SLOTS_PER_EPOCH]
  exact mul_nonneg (mul_nonneg h4 hE) (by norm_num)

/-- With non-negative fee records and a non-negative latest validator count
the derived current execution yield is non-negative. -/
theorem forecastSetup_yield_nonneg (history : List HistoricalDataPoint)
    (scenario : ScenarioParams) {eh : List ExecutionDataPoint} (rng : ℕ → ℝ) (now : ℤ)
    (hfees : ∀ e ∈ eh, 0 ≤ e.priorityFeesETH ∧ 0 ≤ e.mevRewardsETH)
    (hv : 0 ≤ (sortDesc (fun p => p.timestamp) history).headI.activeValidators) :
    0 ≤ (forecastSetup history scenario (some eh) rng now).1.currentExecYield := by
  have hchar : (forecastSetup history scenario (some eh) rng now).1.currentExecYield =
      (if 0 < (eh.take 7).length then
        mean ((eh.take 7).map
          (pointYield (sortDesc (fun p => p.timestamp) history).headI.activeValidators))
      else 0.001) := rfl
  rw [hchar]
  split
  · rw [mean]
    apply div_nonneg _ (Nat.cast_nonneg _)
    apply List.sum_nonneg
    intro x hx
    obtain ⟨e, he, rfl⟩ := List.mem_map.1 hx
    have hf := hfees e (List.mem_of_mem_take he)
    exact div_nonneg (by linarith [hf.1, hf.2]) hv
  · norm_num

/-- C4 (amended): for any non-empty history whose computed staking trend is
flat (zero daily growth rate) and any execution history with non-negative fee
records (given a non-negative latest validator count), the three scenario
trajectories diverge monotonically: at every matched date,
bullish stake ≥ baseline stake ≥ bearish stake.  For merely non-negative
growth trends the ordering can fail (see the counterexample), because the
scenario presets also force different fee regimes, which changes the APR
feedback term. -/
theorem compareScenarios_monotone_of_flat_trend {history : List HistoricalDataPoint}
    (monthsAhead : ℕ) {eh : List ExecutionDataPoint} (rng : ℕ → ℝ) (now : ℤ)
    (hne : history ≠ [])
    (htrend : (calculateStakingTrend history).dailyGrowthRate = 0)
    (hfees : ∀ e ∈ eh, 0 ≤ e.priorityFeesETH ∧ 0 ≤ e.mevRewardsETH)
    (hv : 0 ≤ (sortDesc (fun p => p.timestamp) history).headI.activeValidators) :
    ∃ c, compareScenarios history monthsAhead (some eh) rng now = .ok c ∧
      List.Forall₂ (fun p q => p.totalStakedETH ≤ q.totalStakedETH) c.baseline c.bullish ∧
      List.Forall₂ (fun p q => p.totalStakedETH ≤ q.totalStakedETH) c.bearish c.baseline := by
  have hne' : ¬ history.length = 0 := fun h0 => hne (List.length_eq_zero.1 h0)
  have hokE := generateForecast_eq_ok monthsAhead DEFAULT_SCENARIO (some eh) rng now hne'
  have hokB := generateForecast_eq_ok monthsAhead bullishParams (some eh) rng now hne'
  have hokR := generateForecast_eq_ok monthsAhead bearishParams (some eh) rng now hne'
  have hyE : 0 ≤ (forecastSetup history DEFAULT_SCENARIO (some eh) rng now).1.currentExecYield :=
    forecastSetup_yield_nonneg history DEFAULT_SCENARIO rng now hfees hv
  have hyB : 0 ≤ (forecastSetup history bullishParams (some eh) rng now).1.currentExecYield :=
    forecastSetup_yield_nonneg history bullishParams rng now hfees hv
  have hyR : 0 ≤ (forecastSetup history bearishParams (some eh) rng now).1.currentExecYield :=
    forecastSetup_yield_nonneg history bearishParams rng now hfees hv
  have hmcE : 0 ≤ (forecastSetup history DEFAULT_SCENARIO (some eh) rng now).1.maxDailyChange :=
    getMaxDailyStakeChange_nonneg _
  have hmcB : 0 ≤ (forecastSetup history bullishParams (some eh) rng now).1.maxDailyChange :=
    getMaxDailyStakeChange_nonneg _
  have hmcR : 0 ≤ (forecastSetup history bearishParams (some eh) rng now).1.maxDailyChange :=
    getMaxDailyStakeChange_nonneg _
  have hupE : ∀ st day, (simDay (forecastSetup history DEFAULT_SCENARIO (some eh) rng now).1
      st day).2.currentStake ≤ max 0 st.currentStake := fun st day =>
    simDay_stake_upper _ st day htrend hyE (by rw [forecastSetup_scenario]; norm_num [ DEFAULT_SCENARIO]) hmcE
      (by rw [forecastSetup_scenario]; norm_num [ DEFAULT_SCENARIO])
  have hloE : ∀ st day, max 0 st.currentStake ≤
      (simDay (forecastSetup history DEFAULT_SCENARIO (some eh) rng now).1
        st day).2.currentStake := fun st day =>
    simDay_stake_lower _ st day htrend hyE (by rw [forecastSetup_scenario]; norm_num [ DEFAULT_SCENARIO]) hmcE
      (by rw [forecastSetup_scenario]; norm_num [ DEFAULT_SCENARIO])
  have hloB : ∀ st day, max 0 st.currentStake ≤
      (simDay (forecastSetup history bullishParams (some eh) rng now).1
        st day).2.currentStake := fun st day =>
    simDay_stake_lower _ st day htrend hyB (by rw [forecastSetup_scenario]; norm_num [bullishParams]) hmcB
      (by rw [forecastSetup_scenario]; norm_num [bullishParams])
  have hupR : ∀ st day, (simDay (forecastSetup history bearishParams (some eh) rng now).1
      st day).2.currentStake ≤ max 0 st.currentStake := fun st day =>
    simDay_stake_upper _ st day htrend hyR (by rw [forecastSetup_scenario]; norm_num [bearishParams]) hmcR
      (by rw [forecastSetup_scenario]; norm_num [bearishParams])
  refine ⟨⟨monthlyFilter (simRun (forecastSetup history DEFAULT_SCENARIO (some eh) rng now).1
      (forecastSetup history DEFAULT_SCENARIO (some eh) rng now).2 1 (monthsAhead * 30)),
    monthlyFilter (simRun (forecastSetup history bullishParams (some eh) rng now).1
      (forecastSetup history bullishParams (some eh) rng now).2 1 (monthsAhead * 30)),
    monthlyFilter (simRun (forecastSetup history bearishParams (some eh) rng now).1
      (forecastSetup history bearishParams (some eh) rng now).2 1 (monthsAhead * 30))⟩,
    ?_, ?_, ?_⟩
  · simp only [compareScenarios, hokE, hokB, hokR, exceptBind_ok]
    rfl
  · exact monthlyFilter_forall2
      (simRun_forall2_stake hupE hloB (monthsAhead * 30) _ _ 1 (le_of_eq rfl))
  · exact monthlyFilter_forall2
      (simRun_forall2_stake hupR hloE (monthsAhead * 30) _ _ 1 (le_of_eq rfl))

/-- C4 witness: the amended monotone divergence at the concrete flat
single-point history with an empty execution history. -/
theorem compareScenarios_monotone_witness :
    sampleHistory ≠ [] ∧
      (calculateStakingTrend sampleHistory).dailyGrowthRate = 0 ∧
      (∀ e ∈ ([] : List ExecutionDataPoint),
        0 ≤ e.priorityFeesETH ∧ 0 ≤ e.mevRewardsETH) ∧
      0 ≤ (sortDesc (fun p => p.timestamp) sampleHistory).headI.activeValidators ∧
      ∃ c, compareScenarios sampleHistory 1 (some []) zeroRng 0 = .ok c ∧
        List.Forall₂ (fun p q => p.totalStakedETH ≤ q.totalStakedETH) c.baseline c.bullish ∧
        List.Forall₂ (fun p q => p.totalStakedETH ≤ q.totalStakedETH) c.bearish c.baseline :=
  ⟨by simp [sampleHistory], rfl, by simp,
    by norm_num [sortDesc, insertDesc, sampleHistory, sampleHistoryPoint],
    compareScenarios_monotone_of_flat_trend 1 zeroRng 0 (by simp [sampleHistory]) rfl
      (by simp)
      (by norm_num [sortDesc, insertDesc, sampleHistory, sampleHistoryPoint])⟩

/-- Unfolding the day-iterated state from the back. -/
theorem iterState_succ_back (env : ForecastEnv) :
    ∀ (n : ℕ) (st : SimState) (day : ℕ),
      iterState env st day (n + 1) = (simDay env (iterState env st day n) (day + n)).2 := by
  intro n
  induction n with
  | zero => intro st day; rfl
  | succ n ih =>
    intro st day
    rw [iterState, ih, iterState]
    congr 2
    omega

/-- Every regime's mean-reversion target is at most the hot target. -/
theorem MEAN_REVERSION_target_le (r : FeeRegime) : MEAN_REVERSION_target r ≤ 0.004 := by
  cases r <;> norm_num [MEAN_REVERSION_target]

/-- A rational lower bound on `0.5 ^ (num / den)` certified by raising both
sides to the `den`-th power. -/
theorem le_rpow_half_div {a : ℝ} {num den : ℕ} (hden : den ≠ 0)
    (h : a ^ den ≤ (0.5 : ℝ) ^ num) :
    a ≤ (0.5 : ℝ) ^ ((num : ℝ) / (den : ℝ)) := by
  by_contra hlt
  push_neg at hlt
  have hx0 : (0 : ℝ) ≤ (0.5 : ℝ) ^ ((num : ℝ) / (den : ℝ)) :=
    (Real.rpow_pos_of_pos (by norm_num) _).le
  have hpow : ((0.5 : ℝ) ^ ((num : ℝ) / (den : ℝ))) ^ den = (0.5 : ℝ) ^ num := by
    rw [← Real.rpow_natCast ((0.5 : ℝ) ^ ((num : ℝ) / (den : ℝ))) den,
      ← Real.rpow_mul (by norm_num),
      div_mul_cancel₀ _ (by exact_mod_cast hden : ((den : ℝ) ≠ 0)),
      Real.rpow_natCast]
  have := pow_lt_pow_left₀ hlt hx0 hden
  rw [hpow] at this
  linarith [h, this]

/-- For day indices up to 29, the hot-regime forecast execution APR on a
current yield of 150 is at least 147. -/
theorem exec_hot_lower {d : ℕ} (hd : d ≤ 29) (v : ℝ) :
    (147 : ℝ) ≤ (forecastExecutionYield 150 .hot d v).annualizedAPR := by
  rw [forecastExecutionYield]
  dsimp only
  rw [show MEAN_REVERSION_halfLife FeeRegime.hot = 3 from rfl,
    show MEAN_REVERSION_target FeeRegime.hot = 0.004 from rfl]
  have h29 : (0.001228 : ℝ) ≤ (0.5 : ℝ) ^ ((29 : ℝ) / 3) := by
    apply le_rpow_half_div (by norm_num)
    norm_num
  have hmono : (0.5 : ℝ) ^ ((29 : ℝ) / 3) ≤ (0.5 : ℝ) ^ ((d : ℝ) / 3) := by
    apply Real.rpow_le_rpow_of_exponent_ge (by norm_num) (by norm_num)
    have : (d : ℝ) ≤ 29 := by exact_mod_cast hd
    linarith
  have hα : (0.001228 : ℝ) ≤ (0.5 : ℝ) ^ ((d : ℝ) / 3) := le_trans h29 hmono
  have hα1 : (0.5 : ℝ) ^ ((d : ℝ) / 3) ≤ 1 :=
    Real.rpow_le_one (by norm_num) (by norm_num) (by positivity)
  have ht := MEAN_REVERSION_target_pos (mostLikelyRegime (markovIter d (regimeOneHot .hot)))
  have ht' := MEAN_REVERSION_target_le (mostLikelyRegime (markovIter d (regimeOneHot .hot)))
  linarith [hα, hα1, ht, ht']

/-- At day 30 the hot-regime forecast execution APR on a current yield of
150 is at most 121.52. -/
theorem exec_hot_upper_30 (v : ℝ) :
    (forecastExecutionYield 150 .hot 30 v).annualizedAPR ≤ 121.52 := by
  rw [forecastExecutionYield]
  dsimp only
  rw [show MEAN_REVERSION_halfLife FeeRegime.hot = 3 from rfl,
    show MEAN_REVERSION_target FeeRegime.hot = 0.004 from rfl]
  have hcast : (((30 : ℕ) : ℝ) / 3) = ((10 : ℕ) : ℝ) := by norm_num
  rw [hcast, Real.rpow_natCast]
  have hpow : (0.5 : ℝ) ^ (10 : ℕ) = 1 / 1024 := by norm_num
  rw [hpow]
  have ht' := MEAN_REVERSION_target_le (mostLikelyRegime (markovIter 30 (regimeOneHot .hot)))
  have ht := MEAN_REVERSION_target_pos (mostLikelyRegime (markovIter 30 (regimeOneHot .hot)))
  linarith [ht, ht']

/-- For day indices up to 30, the calm-regime forecast execution APR on a
current yield of 150 is at least 6131. -/
theorem exec_calm_lower {d : ℕ} (hd : d ≤ 30) (v : ℝ) :
    (6131 : ℝ) ≤ (forecastExecutionYield 150 .calm d v).annualizedAPR := by
  rw [forecastExecutionYield]
  dsimp only
  rw [show MEAN_REVERSION_halfLife FeeRegime.calm = 7 from rfl,
    show MEAN_REVERSION_target FeeRegime.calm = 0.0005 from rfl]
  have h30 : (0.0512 : ℝ) ≤ (0.5 : ℝ) ^ ((30 : ℝ) / 7) := by
    apply le_rpow_half_div (by norm_num)
    norm_num
  have hmono : (0.5 : ℝ) ^ ((30 : ℝ) / 7) ≤ (0.5 : ℝ) ^ ((d : ℝ) / 7) := by
    apply Real.rpow_le_rpow_of_exponent_ge (by norm_num) (by norm_num)
    have : (d : ℝ) ≤ 30 := by exact_mod_cast hd
    linarith
  have hβ : (0.0512 : ℝ) ≤ (0.5 : ℝ) ^ ((d : ℝ) / 7) := le_trans h30 hmono
  have hβ1 : (0.5 : ℝ) ^ ((d : ℝ) / 7) ≤ 1 :=
    Real.rpow_le_one (by norm_num) (by norm_num) (by positivity)
  have ht := MEAN_REVERSION_target_pos (mostLikelyRegime (markovIter d (regimeOneHot .calm)))
  linarith [hβ, hβ1, ht]

/-- Interval bounds on the consensus APR across the stake band reached by
the counterexample runs. -/
theorem consensus_band {s : ℝ} (h1 : 34500000 ≤ s) (h2 : s ≤ 37956000) :
    10.79 ≤ getTheoreticalAPR s ∧ getTheoreticalAPR s ≤ 11.38 := by
  have hpos : 0 < s := by linarith
  rw [getTheoreticalAPR_pos_eq hpos]
  have h185 : (185000000 : ℝ) ≤ Real.sqrt (s * 1e9) :=
    Real.le_sqrt_of_sq_le (by nlinarith)
  have hF_lo : (185000000 : ℝ) ≤ ((⌊Real.sqrt (s * 1e9)⌋ : ℤ) : ℝ) := by
    exact_mod_cast Int.le_floor.2 (by exact_mod_cast h185)
  have hsq : Real.sqrt (s * 1e9) < 194900000 :=
    (Real.sqrt_lt' (by norm_num)).2 (by nlinarith)
  have hF_hi : ((⌊Real.sqrt (s * 1e9)⌋ : ℤ) : ℝ) ≤ 194900000 :=
    le_trans (Int.floor_le _) hsq.le
  have hFpos : (0 : ℝ) < ((⌊Real.sqrt (s * 1e9)⌋ : ℤ) : ℝ) := by linarith
  constructor
  · calc (10.79 : ℝ) ≤ 2103840000 / 194900000 := by norm_num
      _ ≤ 2103840000 / ((⌊Real.sqrt (s * 1e9)⌋ : ℤ) : ℝ) :=
        (div_le_div_iff_of_pos_left (by norm_num) (by norm_num) hFpos).2 hF_hi
  · calc 2103840000 / ((⌊Real.sqrt (s * 1e9)⌋ : ℤ) : ℝ) ≤ 2103840000 / 185000000 :=
        (div_le_div_iff_of_pos_left (by norm_num) hFpos (by norm_num)).2 hF_lo
      _ ≤ 11.38 := by norm_num

/-- The computed staking trend of `flowHistory` is 8100 ETH/day. -/
theorem flowTrend_growth : (calculateStakingTrend flowHistory).dailyGrowthRate = 8100 := by
  rw [calculateStakingTrend, if_neg (by norm_num [flowHistory])]
  have hdc : dailyChangesOf (sortAsc (fun p => p.timestamp) flowHistory) = [8100] := by
    have hsort : sortAsc (fun p => p.timestamp) flowHistory =
        [⟨-86400000, 34491900, 1078125, 0, 0, none⟩,
         ⟨0, 34500000, 1078125, 0, 0, none⟩] := rfl
    rw [hsort, dailyChangesOf]
    norm_num [List.zip, List.zipWith, List.filterMap]
  simp only [hdc]
  norm_num [mean]

/-- The churn-bound daily stake change at 1 078 125 validators is 115 200
ETH. -/
theorem flowMaxDailyChange : getMaxDailyStakeChange 1078125 = 115200 := by
  show getChurnLimit 1078125 * EPOCHS_PER_DAY * 32 = 115200
  rw [getChurnLimit, jsFloor]
  rw [show ⌊(1078125 : ℝ) / CHURN_LIMIT_QUOTIENT⌋ = 16 by
    rw [CHURN_LIMIT_QUOTIENT]; norm_num [Int.floor_eq_iff]]
  rw [MIN_PER_EPOCH_CHURN_LIMIT, max_eq_right (by norm_num)]
  norm_num [EPOCHS_PER_DAY, SECONDS_PER_EPOCH, SECONDS_PER_SLOT, SLOTS_PER_EPOCH]

/-- The recent execution window of `hotExec` averages 150 ETH per validator
per day. -/
theorem flowYield : mean ((hotExec.take 7).map (pointYield 1078125)) = 150 := by
  norm_num [hotExec, mean, pointYield]

/-- `detectRegime` classifies `hotExec` as hot. -/
theorem flowRegime : (detectRegime hotExec 1078125).currentRegime = FeeRegime.hot := by
  rw [detectRegime, if_neg (by norm_num [hotExec])]
  dsimp only
  have hsort : sortDesc (fun d => d.timestamp) hotExec = hotExec := rfl
  rw [hsort]
  rw [show (hotExec.take 7).map (pointYield 1078125) =
      List.map (pointYield 1078125) (List.take 7 hotExec) from rfl]
  rw [flowYield]
  rw [if_neg (by norm_num [REGIME_THRESHOLDS_calm_max]),
    if_neg (by norm_num [REGIME_THRESHOLDS_elevated_max])]

/-- `applyAPRFeedback` in closed form. -/
theorem applyAPRFeedback_eq (b cur t : ℝ) :
    applyAPRFeedback b cur t = b * (1 + (cur - t) * 0.1) := rfl

/-- During days 1–29 of the baseline counterexample run, growth is clamped
to the full churn bound: the stake advances by exactly 115 200 ETH. -/
theorem baseline_step_clamped {st : SimState} {d : ℕ} (hd1 : 1 ≤ d) (hd2 : d ≤ 29)
    (hs1 : 34500000 ≤ st.currentStake) (hs2 : st.currentStake ≤ 37840800) :
    (simDay flowSetupE.1 st d).2.currentStake = st.currentStake + 115200 := by
  have hg : flowSetupE.1.trend.dailyGrowthRate = 8100 := flowTrend_growth
  have hbias : flowSetupE.1.scenario.netFlowBias = 0 := by
    show DEFAULT_SCENARIO.netFlowBias = 0
    norm_num [ DEFAULT_SCENARIO]
  have hmult : flowSetupE.1.scenario.mevMultiplier = 1 := by
    show DEFAULT_SCENARIO.mevMultiplier = 1
    norm_num [ DEFAULT_SCENARIO]
  have hmc : flowSetupE.1.maxDailyChange = 115200 := flowMaxDailyChange
  have hyld : flowSetupE.1.currentExecYield = 150 := by
    show (if 0 < (hotExec.take 7).length then
        mean ((hotExec.take 7).map (pointYield 1078125)) else 0.001) = 150
    rw [if_pos (by norm_num [hotExec])]
    exact flowYield
  have hreg : flowSetupE.1.baseRegime = FeeRegime.hot := flowRegime
  rw [simDay_state_stake, hg, hbias, hmult, hmc, hyld, hreg, applyAPRFeedback_eq]
  have hc := consensus_band hs1 (by linarith)
  have hA := exec_hot_lower hd2 st.currentValidators
  set A := (forecastExecutionYield 150 FeeRegime.hot d st.currentValidators).annualizedAPR
    with hA_def
  set c := getTheoreticalAPR st.currentStake with hc_def
  have heg_ge : (115200 : ℝ) ≤ (8100 + 0 * 115200 * 0.1) * (1 + (c + A * 1 - 4.0) * 0.1) := by
    nlinarith [hc.1, hA]
  have heg_pos : (0 : ℝ) < (8100 + 0 * 115200 * 0.1) * (1 + (c + A * 1 - 4.0) * 0.1) := by
    linarith
  rw [if_pos heg_pos, min_eq_right heg_ge, max_eq_right (by linarith)]

/-- On day 30 of the baseline counterexample run, growth is strictly below
the churn bound: the stake advances by strictly less than 115 200 ETH. -/
theorem baseline_step_30 {st : SimState}
    (hs1 : 34500000 ≤ st.currentStake) (hs2 : st.currentStake ≤ 37840800) :
    (simDay flowSetupE.1 st 30).2.currentStake < st.currentStake + 115200 := by
  have hg : flowSetupE.1.trend.dailyGrowthRate = 8100 := flowTrend_growth
  have hbias : flowSetupE.1.scenario.netFlowBias = 0 := by
    show DEFAULT_SCENARIO.netFlowBias = 0
    norm_num [ DEFAULT_SCENARIO]
  have hmult : flowSetupE.1.scenario.mevMultiplier = 1 := by
    show DEFAULT_SCENARIO.mevMultiplier = 1
    norm_num [ DEFAULT_SCENARIO]
  have hmc : flowSetupE.1.maxDailyChange = 115200 := flowMaxDailyChange
  have hyld : flowSetupE.1.currentExecYield = 150 := by
    show (if 0 < (hotExec.take 7).length then
        mean ((hotExec.take 7).map (pointYield 1078125)) else 0.001) = 150
    rw [if_pos (by norm_num [hotExec])]
    exact flowYield
  have hreg : flowSetupE.1.baseRegime = FeeRegime.hot := flowRegime
  rw [simDay_state_stake, hg, hbias, hmult, hmc, hyld, hreg, applyAPRFeedback_eq]
  have hc := consensus_band hs1 (by linarith)
  have hA_up := exec_hot_upper_30 st.currentValidators
  have hA_lo := annualizedAPR_pos (by norm_num : (0 : ℝ) ≤ 150) FeeRegime.hot 30
    st.currentValidators
  set A := (forecastExecutionYield 150 FeeRegime.hot 30 st.currentValidators).annualizedAPR
    with hA_def
  set c := getTheoreticalAPR st.currentStake with hc_def
  have heg_le : (8100 + 0 * 115200 * 0.1) * (1 + (c + A * 1 - 4.0) * 0.1) < 115200 := by
    nlinarith [hc.2, hA_up]
  have heg_pos : (0 : ℝ) < (8100 + 0 * 115200 * 0.1) * (1 + (c + A * 1 - 4.0) * 0.1) := by
    nlinarith [hc.1, hA_lo]
  rw [if_pos heg_pos, min_eq_left heg_le.le, max_eq_right (by nlinarith [heg_pos])]
  linarith

/-- During days 1–30 of the bearish counterexample run, growth is clamped to
the full churn bound: the stake advances by exactly 115 200 ETH. -/
theorem bear_step_clamped {st : SimState} {d : ℕ} (hd : d ≤ 30)
    (hs0 : 0 ≤ st.currentStake) :
    (simDay flowSetupR.1 st d).2.currentStake = st.currentStake + 115200 := by
  have hg : flowSetupR.1.trend.dailyGrowthRate = 8100 := flowTrend_growth
  have hbias : flowSetupR.1.scenario.netFlowBias = -0.5 := by
    show bearishParams.netFlowBias = -0.5
    norm_num [bearishParams]
  have hmult : flowSetupR.1.scenario.mevMultiplier = 0.7 := by
    show bearishParams.mevMultiplier = 0.7
    norm_num [bearishParams]
  have hmc : flowSetupR.1.maxDailyChange = 115200 := flowMaxDailyChange
  have hyld : flowSetupR.1.currentExecYield = 150 := by
    show (if 0 < (hotExec.take 7).length then
        mean ((hotExec.take 7).map (pointYield 1078125)) else 0.001) = 150
    rw [if_pos (by norm_num [hotExec])]
    exact flowYield
  have hreg : flowSetupR.1.baseRegime = FeeRegime.calm := rfl
  rw [simDay_state_stake, hg, hbias, hmult, hmc, hyld, hreg, applyAPRFeedback_eq]
  have hcpos := getTheoreticalAPR_nonneg st.currentStake
  have hA := exec_calm_lower hd st.currentValidators
  set A := (forecastExecutionYield 150 FeeRegime.calm d st.currentValidators).annualizedAPR
    with hA_def
  set c := getTheoreticalAPR st.currentStake with hc_def
  have heg_ge : (115200 : ℝ) ≤ (8100 + -0.5 * 115200 * 0.1) * (1 + (c + A * 0.7 - 4.0) * 0.1) := by
    nlinarith [hcpos, hA]
  have heg_pos : (0 : ℝ) < (8100 + -0.5 * 115200 * 0.1) * (1 + (c + A * 0.7 - 4.0) * 0.1) := by
    linarith
  rw [if_pos heg_pos, min_eq_right heg_ge, max_eq_right (by linarith)]

/-- Through 29 simulated days, the baseline and bearish counterexample runs
carry identical stakes, both fully clamped. -/
theorem flow_states : ∀ n, n ≤ 29 →
    (iterState flowSetupE.1 flowSetupE.2 1 n).currentStake = 34500000 + (n : ℝ) * 115200 ∧
    (iterState flowSetupR.1 flowSetupR.2 1 n).currentStake = 34500000 + (n : ℝ) * 115200 := by
  intro n
  induction n with
  | zero =>
    intro _
    constructor
    · show (34500000 : ℝ) = 34500000 + ((0 : ℕ) : ℝ) * 115200
      norm_num
    · show (34500000 : ℝ) = 34500000 + ((0 : ℕ) : ℝ) * 115200
      norm_num
  | succ n ih =>
    intro hn
    obtain ⟨hE, hR⟩ := ih (by omega)
    have hcast : ((n : ℕ) : ℝ) ≤ 28 := by exact_mod_cast (by omega : n ≤ 28)
    rw [iterState_succ_back, iterState_succ_back]
    constructor
    · rw [baseline_step_clamped (by omega) (by omega)
        (by rw [hE]; nlinarith) (by rw [hE]; nlinarith), hE]
      push_cast
      ring
    · rw [bear_step_clamped (by omega) (by rw [hR]; positivity), hR]
      push_cast
      ring

/-- C4 counterexample: on `flowHistory` (non-negative growth trend of
8100 ETH/day) with the `hot`-classified `hotExec` execution history and
`monthsAhead = 1`, the scenario comparison puts the *bearish* stake strictly
above the baseline stake at the single matched date: the baseline run's
growth is clamped at the churn bound for 29 days but unclamps on day 30
(its APR-feedback term shrinks as the forced regimes diverge), while the
bearish run stays clamped. -/
theorem compareScenarios_not_monotone_counterexample :
    0 ≤ (calculateStakingTrend flowHistory).dailyGrowthRate ∧
    compareScenarios flowHistory 1 (some hotExec) zeroRng 0 =
      .ok ⟨[cexBaselinePoint], [cexBullishPoint], [cexBearishPoint]⟩ ∧
    cexBaselinePoint.totalStakedETH < cexBearishPoint.totalStakedETH := by
  refine ⟨by rw [flowTrend_growth]; norm_num, ?_, ?_⟩
  · have hokE := @generateForecast_one_month flowHistory DEFAULT_SCENARIO
      (some hotExec) zeroRng 0 (by norm_num [flowHistory])
    have hokB := @generateForecast_one_month flowHistory bullishParams
      (some hotExec) zeroRng 0 (by norm_num [flowHistory])
    have hokR := @generateForecast_one_month flowHistory bearishParams
      (some hotExec) zeroRng 0 (by norm_num [flowHistory])
    simp only [compareScenarios, hokE, hokB, hokR, exceptBind_ok]
    rfl
  · obtain ⟨hE29, hR29⟩ := flow_states 29 (le_refl 29)
    have h1 : cexBaselinePoint.totalStakedETH =
        (simDay flowSetupE.1 (iterState flowSetupE.1 flowSetupE.2 1 29) 30).2.currentStake := rfl
    have h2 : cexBearishPoint.totalStakedETH =
        (simDay flowSetupR.1 (iterState flowSetupR.1 flowSetupR.2 1 29) 30).2.currentStake := rfl
    rw [h1, h2, bear_step_clamped (le_refl 30) (by rw [hR29]; positivity), hR29]
    have hlt := @baseline_step_30 (iterState flowSetupE.1 flowSetupE.2 1 29)
      (by rw [hE29]; norm_num) (by rw [hE29]; norm_num)
    rw [hE29] at hlt
    push_cast at hlt ⊢
    linarith

end ESR
